import Mathlib

/-!
Verification development for the Netflix-to-Overseerr bridge
(src/src/scraper.py). The reconciliation logic is shallowly embedded:
the HTTP transport is an explicit environment (Env) whose GET and POST
responses are arbitrary values, and every embedded operation also
returns the list of HTTP calls it issued, so that frame properties
(for instance that dry-run mode issues no POST) are statable.
Fallible JSON decoding and raised transport exceptions are modelled
with Except String; the Python try/except blocks become explicit
matches on those values.
-/

/-- A single quote character, used to build Python error strings. -/
def apos : String := String.singleton (Char.ofNat 39)

/-- Python substring test: needle in hay. -/
def pyIn (needle hay : String) : Bool := decide (needle.data <:+: hay.data)

/-- Python repr of a list of ints, e.g. [2, 3]; used by f-string messages. -/
def pyListRepr (l : List Nat) : String :=
  "[" ++ String.intercalate ", " (l.map toString) ++ "]"

/-- Python string comparison, decided on the character lists (the
iterator-based core comparison does not reduce in the kernel). -/
def pyStrLt (a b : String) : Bool := decide (a.data < b.data)

/-- Insert into an ascending-sorted list (used to model Python sorted). -/
def insertAsc (x : Nat) : List Nat → List Nat
  | [] => [x]
  | y :: ys => if x ≤ y then x :: y :: ys else y :: insertAsc x ys

/-- Python sorted() on a list of ints. -/
def pySorted (l : List Nat) : List Nat := l.foldr insertAsc []

/-- Python sorted(list(set(l))): sorted list of the distinct elements. -/
def pySortedSet (l : List Nat) : List Nat := pySorted l.dedup

/-- Stable insertion into a descending-by-key list: the new element goes
after all previously inserted elements whose key is at least as large,
matching Python list.sort(key=..., reverse=True) stability. -/
def insertDesc {α : Type} (key : α → String) (x : α) : List α → List α
  | [] => [x]
  | y :: ys => if pyStrLt (key y) (key x) then x :: y :: ys else y :: insertDesc key x ys

/-- Left fold of stable descending insertion. -/
def pySortDescAux {α : Type} (key : α → String) : List α → List α → List α
  | acc, [] => acc
  | acc, x :: xs => pySortDescAux key (insertDesc key x acc) xs

/-- Python list.sort(key=..., reverse=True): stable descending sort. -/
def pySortDesc {α : Type} (key : α → String) (l : List α) : List α :=
  pySortDescAux key [] l

/-- First element achieving the maximal key, scanning left to right. -/
def firstMaxAux {α : Type} (key : α → String) : α → List α → α
  | cur, [] => cur
  | cur, x :: xs => firstMaxAux key (if pyStrLt (key cur) (key x) then x else cur) xs

/-- The first element of a list whose key is maximal (none on an empty list). -/
def firstMax {α : Type} (key : α → String) : List α → Option α
  | [] => none
  | x :: xs => some (firstMaxAux key x xs)

/-- Python max() over a nonempty list of strings (junk value on empty input,
which every caller guards against): keeps the current value unless a
strictly greater one appears. -/
def pyMax : List String → String
  | [] => ""
  | x :: xs => xs.foldl (fun cur y => if pyStrLt cur y then y else cur) x

/-- Value of a run of decimal digit characters, as Python int() computes it. -/
def digitsToNat (ds : List Char) : Nat :=
  ds.foldl (fun n c => 10 * n + (c.toNat - 48)) 0

/-- Leftmost-match scan for the regex Season (\d+): at each position the
literal Season followed by a space must match and at least one digit must
follow; the greedy capture takes the maximal digit run. -/
def findSeasonNumber : List Char → Option Nat
  | [] => none
  | c :: cs =>
    if "Season ".data.isPrefixOf (c :: cs) then
      if (((c :: cs).drop 7).takeWhile Char.isDigit).isEmpty then findSeasonNumber cs
      else some (digitsToNat (((c :: cs).drop 7).takeWhile Char.isDigit))
    else findSeasonNumber cs

/-- The regex Season (\d+) matches at position i of cs. -/
def seasonMatchAt (cs : List Char) (i : Nat) : Bool :=
  "Season ".data.isPrefixOf (cs.drop i) &&
    !((cs.drop (i + 7)).takeWhile Char.isDigit).isEmpty

/-- The captured value of a match of Season (\d+) at position i. -/
def seasonValueAt (cs : List Char) (i : Nat) : Nat :=
  digitsToNat ((cs.drop (i + 7)).takeWhile Char.isDigit)

/-- Embedding of scraper.py _extract_season_number: empty or N/A is
indeterminate; Limited Series means season 1; otherwise the first
Season (\d+) match, else indeterminate. -/
def extract_season_number (seasonTitle : String) : Option Nat :=
  if seasonTitle = "" || seasonTitle = "N/A" then none
  else if pyIn "Limited Series" seasonTitle then some 1
  else findSeasonNumber seasonTitle.data

/-- One parsed row of the Netflix TSV feed. -/
structure FeedRow where
  country_name : String
  week : String
  category : String
  show_title : String
  season_title : String
deriving DecidableEq, Inhabited, Repr

/-- A ranked TV show entry: title plus the free-text season title. -/
structure TvShow where
  title : String
  season_title : String
deriving DecidableEq, Inhabited, Repr

/-- Embedding of scraper.py get_netflix_top10. The feed argument models
the GET of the TSV plus parsing: Except.error covers a network error,
a non-2xx raise_for_status, or a parse exception, all of which the
try/except turns into two empty lists. -/
def get_netflix_top10 (country : String) (feed : Except String (List FeedRow)) :
    List String × List TvShow :=
  match feed with
  | .error _ => ([], [])
  | .ok rows =>
    let countryData := rows.filter (fun r => r.country_name == country)
    if countryData.isEmpty then ([], [])
    else
      let mostRecentWeek := pyMax (countryData.map (fun r => r.week))
      let recentData := countryData.filter (fun r => r.week == mostRecentWeek)
      let movies := (recentData.filter (fun r => r.category == "Films")).map
        (fun r => r.show_title)
      let tvShows := (recentData.filter (fun r => r.category == "TV")).map
        (fun r => TvShow.mk r.show_title r.season_title)
      (movies.take 10, tvShows.take 10)

/-- A search result entry as read by the scraper: id is always present,
the other keys are read with .get and may be absent. -/
structure SearchResult where
  id : Nat
  mediaType : Option String
  title : Option String
  name : Option String
  releaseDate : Option String
  firstAirDate : Option String
deriving DecidableEq, Inhabited, Repr

/-- Body of the search response: results models .get with results, where
an absent key behaves like an empty list in the truthiness test. -/
structure SearchData where
  results : List SearchResult
deriving DecidableEq, Inhabited, Repr

deriving instance DecidableEq for Except

/-- An HTTP response whose JSON body may fail to parse. -/
structure HttpResp (alpha : Type) where
  status_code : Nat
  body : Except String alpha
deriving DecidableEq, Inhabited

/-- A season object inside requests or media details: seasonNumber is read
with default 0, status with .get, and available is the truthiness of the
available field (default False). -/
structure SeasonEntry where
  seasonNumber : Nat
  status : Option Nat
  available : Bool
deriving DecidableEq, Inhabited, Repr

/-- One entry of the requests listing: tmdbId models
request.get(media, default empty).get(tmdbId); seasons distinguishes an
absent key (none) from a present list. -/
structure ReqEntry where
  tmdbId : Option Nat
  status : Option Nat
  seasons : Option (List SeasonEntry)
deriving DecidableEq, Inhabited, Repr

/-- Body of the requests listing response. -/
structure ReqListData where
  results : Option (List ReqEntry)
deriving DecidableEq, Inhabited, Repr

/-- A request object inside the media details response; only its seasons
are used (the status field is merely logged by the source). -/
structure MediaReq where
  seasons : Option (List SeasonEntry)
deriving DecidableEq, Inhabited, Repr

/-- Body of the media details response. mediaInfoSeasons collapses the
three-step access (mediaInfo present, truthy, with a seasons key) into
one optional list, since a null or seasonless mediaInfo contributes
nothing in the source. -/
structure MediaData where
  seasons : Option (List SeasonEntry)
  requests : Option (List MediaReq)
  mediaInfoSeasons : Option (List SeasonEntry)
deriving DecidableEq, Inhabited, Repr

/-- Body of the tv details response. -/
structure TvData where
  seasons : Option (List SeasonEntry)
deriving DecidableEq, Inhabited, Repr

/-- A POST response: msg models response.json().get(message), where the
outer Except is a JSON parse exception and none means a missing field
(read with default Unknown error). -/
structure PostResponse where
  status_code : Nat
  msg : Except String (Option String)
deriving DecidableEq, Inhabited

/-- Body of a create-request POST as built by the scraper. -/
structure PostBody where
  mediaId : Nat
  mediaType : String
  seasons : Option (List Nat)
  is4k : Bool
deriving DecidableEq, Inhabited, Repr

/-- One HTTP call issued by the scraper, recorded in traces. -/
inductive HttpCall where
  | getSearch (query : String)
  | getRequests
  | getMedia (id : Nat)
  | getTv (id : Nat)
  | post (body : PostBody)
deriving DecidableEq, Inhabited, Repr

/-- The HTTP transport: each endpoint answers with either a raised
exception (Except.error) or a response; POST responses are indexed by how
many POSTs were issued before, so successive POSTs may answer
differently. -/
structure Env where
  search : Except String (HttpResp SearchData)
  reqList : Except String (HttpResp ReqListData)
  media : Except String (HttpResp MediaData)
  tv : Except String (HttpResp TvData)
  post : Nat → Except String PostResponse

/-- The POST bodies occurring in a trace, in order. -/
def postCalls (tr : List HttpCall) : List PostBody :=
  tr.filterMap (fun c => match c with | .post b => some b | _ => none)

/-- Whether a trace element is one of the read-only season-lookup GETs. -/
def isLookupCall : HttpCall → Bool
  | .getRequests => true
  | .getMedia _ => true
  | .getTv _ => true
  | _ => false

/-- Outcome dict of the request entry points: a status string, a message,
and the resolved id when the source includes tmdb_id in the dict. -/
structure Outcome where
  status : String
  message : String
  tmdb_id : Option Nat
deriving DecidableEq, Inhabited, Repr

/-- Outcome produced by the outermost except handler. -/
def excOutcome (e : String) : Outcome :=
  { status := "error", message := "Exception: " ++ e, tmdb_id := none }

/-- Reading response.json().get(message, Unknown error): propagates the
parse exception, defaults a missing field. -/
def getMsg (r : PostResponse) : Except String String :=
  match r.msg with
  | .error e => .error e
  | .ok none => .ok "Unknown error"
  | .ok (some m) => .ok m

/-- The Overseerr defect signature matched by the source. -/
def bugMsg : String :=
  "Cannot read properties of undefined (reading " ++ apos ++ "filter" ++ apos ++ ")"

/-- The unknown-media signature matched by the source. -/
def noEntityMsg : String := "Could not find any entity of type \"Media\""

/-- Accepted request or season status: 2 pending, 3 approved, 5 available. -/
def statusAccepted (st : Option Nat) : Bool :=
  st == some 2 || st == some 3 || st == some 5

/-- A season entry counted as existing: positive number and accepted
status or available flag. -/
def okSeason (s : SeasonEntry) : Bool :=
  decide (0 < s.seasonNumber) && (statusAccepted s.status || s.available)

/-- Numbers of the seasons counted as existing, in response order. -/
def seasonNumbersOk (ss : List SeasonEntry) : List Nat :=
  (ss.filter okSeason).map (fun s => s.seasonNumber)

/-- Seasons contributed by one entry of the requests listing: the entry
must be for the given media id and have accepted request status; then
every positive season number is taken (the seasons own status and
available fields are not consulted on this path). An absent or empty
seasons list contributes nothing. -/
def reqEntrySeasons (mediaId : Nat) (r : ReqEntry) : List Nat :=
  if r.tmdbId == some mediaId && statusAccepted r.status then
    match r.seasons with
    | some ss => (ss.map (fun s => s.seasonNumber)).filter (fun n => decide (0 < n))
    | none => []
  else []

/-- Embedding of scraper.py _extract_seasons_from_requests. -/
def extract_seasons_from_requests (d : ReqListData) (mediaId : Nat) : List Nat :=
  pySortedSet (((d.results.getD []).map (reqEntrySeasons mediaId)).flatten)

/-- Embedding of scraper.py _extract_seasons_from_media: seasons, then the
seasons of each listed request, then the mediaInfo seasons. -/
def extract_seasons_from_media (d : MediaData) : List Nat :=
  pySortedSet (seasonNumbersOk (d.seasons.getD [])
    ++ (((d.requests.getD []).map (fun r => seasonNumbersOk (r.seasons.getD []))).flatten)
    ++ seasonNumbersOk (d.mediaInfoSeasons.getD []))

/-- The tv-details fallback extraction (scraper.py lines 215-235): note the
source sorts but does not de-duplicate on this path. -/
def extract_seasons_from_tv (d : TvData) : List Nat :=
  pySorted (seasonNumbersOk (d.seasons.getD []))

/-- Second and third stages of get_existing_tv_requests: the media details
endpoint, falling back to the tv details endpoint on a status that is
neither 200 nor 404. Raised exceptions and parse failures are caught by
the enclosing try and give the empty list. -/
def lookupMediaStage (env : Env) (mediaId : Nat) : List Nat × List HttpCall :=
  match env.media with
  | .error _ => ([], [.getMedia mediaId])
  | .ok mresp =>
    if mresp.status_code = 200 then
      match mresp.body with
      | .error _ => ([], [.getMedia mediaId])
      | .ok d => (extract_seasons_from_media d, [.getMedia mediaId])
    else if mresp.status_code = 404 then ([], [.getMedia mediaId])
    else
      match env.tv with
      | .error _ => ([], [.getMedia mediaId, .getTv mediaId])
      | .ok tresp =>
        if tresp.status_code = 200 then
          match tresp.body with
          | .error _ => ([], [.getMedia mediaId, .getTv mediaId])
          | .ok td => (extract_seasons_from_tv td, [.getMedia mediaId, .getTv mediaId])
        else ([], [.getMedia mediaId, .getTv mediaId])

/-- Embedding of scraper.py get_existing_tv_requests: the requests listing
first; when it yields nothing usable, the media details stage. -/
def get_existing_tv_requests (env : Env) (mediaId : Nat) : List Nat × List HttpCall :=
  match env.reqList with
  | .error _ => ([], [.getRequests])
  | .ok rresp =>
    if rresp.status_code = 200 then
      match rresp.body with
      | .error _ => ([], [.getRequests])
      | .ok d =>
        let ex := extract_seasons_from_requests d mediaId
        if ex.isEmpty then
          let p := lookupMediaStage env mediaId
          (p.1, .getRequests :: p.2)
        else (ex, [.getRequests])
    else
      let p := lookupMediaStage env mediaId
      (p.1, .getRequests :: p.2)

/-- Python str.lower, modelled per character (the scraper only compares
ASCII titles); kernel-computable, unlike String.toLower. -/
def pyLower (s : String) : String := String.mk (s.data.map Char.toLower)

/-- The displayed name of a search result: r.get(title, r.get(name, empty)),
lowercased as in the comparison the source performs. -/
def displayName (r : SearchResult) : String := pyLower (r.title.getD (r.name.getD ""))

/-- The date key for ranking: releaseDate or-else firstAirDate, where the
Python or also skips a present empty string. -/
def dateKey (r : SearchResult) : String :=
  let rd := r.releaseDate.getD ""
  if rd = "" then r.firstAirDate.getD "" else rd

/-- Match selection of request_in_overseerr (scraper.py lines 536-551):
with more than one result, prefer exact case-insensitive title matches of
the right media type, else sort all results by date descending and take
the head; with a single result take it directly. -/
def chooseMedia (title mediaType : String) (results : List SearchResult) :
    SearchResult :=
  if 1 < results.length then
    let exact := results.filter
      (fun r => displayName r == pyLower title && r.mediaType == some mediaType)
    match exact with
    | m :: _ => m
    | [] => (pySortDesc dateKey results).headI
  else results.headI

/-- Match selection of request_tv_show_seasons (scraper.py lines 370-379):
among the tv-typed results, prefer exact case-insensitive name matches,
else sort by first-air date descending and take the head. -/
def chooseTvItem (title : String) (tvResults : List SearchResult) : SearchResult :=
  match tvResults.filter (fun r => pyLower (r.name.getD "") == pyLower title) with
  | m :: _ => m
  | [] => (pySortDesc (fun r => r.firstAirDate.getD "") tvResults).headI

/-- Message of a successful batched or per-season request, with the two
variants the source picks by whether existing seasons were found. -/
def successMsg (existing requested : List Nat) : String :=
  if existing.isEmpty then "Successfully requested seasons " ++ pyListRepr requested
  else "Successfully requested missing seasons " ++ pyListRepr requested
    ++ " (existing: " ++ pyListRepr existing ++ ")"

/-- The per-season fallback loop of request_tv_show_seasons (lines
440-460): posts each season alone, collecting those answered 201; a 409
or a recognized error is skipped; a raised exception or JSON failure
aborts the whole entry point (Except.error). The Nat argument is the
index of the next POST. -/
def seasonLoop (env : Env) (mediaId : Nat) :
    Nat → List Nat → Except String (List Nat) × List HttpCall
  | _, [] => (.ok [], [])
  | k, s :: rest =>
    let body : PostBody := { mediaId := mediaId, mediaType := "tv",
                             seasons := some [s], is4k := false }
    match env.post k with
    | .error e => (.error e, [.post body])
    | .ok r =>
      if r.status_code = 201 then
        let p := seasonLoop env mediaId (k + 1) rest
        (p.1.map (fun l => s :: l), .post body :: p.2)
      else if r.status_code = 409 then
        let p := seasonLoop env mediaId (k + 1) rest
        (p.1, .post body :: p.2)
      else
        match getMsg r with
        | .error e => (.error e, [.post body])
        | .ok _ =>
          let p := seasonLoop env mediaId (k + 1) rest
          (p.1, .post body :: p.2)

/-- Handling of a failed batched request (scraper.py lines 429-503), given
the decoded error message: defect signature, per-season fallback,
unknown-media import retry (POST index 1), then the verbatim error.
Returns the outcome and the additional trace beyond the batched POST. -/
def rtssErrorBranch (env : Env) (mediaId : Nat) (existing toRequest : List Nat)
    (errorMsg : String) : Outcome × List HttpCall :=
  if pyIn bugMsg errorMsg then
    ({ status := "error", message := "Overseerr API bug - try requesting via web UI",
       tmdb_id := none }, [])
  else if pyIn "No seasons available to request" errorMsg then
    let p := seasonLoop env mediaId 1 toRequest
    match p.1 with
    | .error e => (excOutcome e, p.2)
    | .ok requested =>
      if requested.isEmpty then
        ({ status := "existing_request",
           message := "All seasons already available or requested",
           tmdb_id := some mediaId }, p.2)
      else
        ({ status := "new_request", message := successMsg existing requested,
           tmdb_id := some mediaId }, p.2)
  else if pyIn noEntityMsg errorMsg then
    let sbody : PostBody := { mediaId := mediaId, mediaType := "tv",
                              seasons := none, is4k := false }
    match env.post 1 with
    | .error e => (excOutcome e, [.post sbody])
    | .ok sr =>
      if sr.status_code = 201 then
        ({ status := "new_request", message := "Successfully requested (media imported)",
           tmdb_id := some mediaId }, [.post sbody])
      else if sr.status_code = 409 then
        ({ status := "existing_request", message := "Request already exists",
           tmdb_id := some mediaId }, [.post sbody])
      else
        match getMsg sr with
        | .error e => (excOutcome e, [.post sbody])
        | .ok se =>
          ({ status := "error", message := "Request failed: " ++ se,
             tmdb_id := none }, [.post sbody])
  else if pyIn bugMsg errorMsg then
    -- kept from the source (line 496); unreachable after the first test
    ({ status := "error", message := "Overseerr API bug - try requesting via web UI",
       tmdb_id := none }, [])
  else
    ({ status := "error", message := "Request failed: " ++ errorMsg,
       tmdb_id := none }, [])

/-- Core of request_tv_show_seasons after a usable tv search result list
was obtained: resolve the item, look up existing seasons, compute the
missing ones, handle the dry-run short circuit and the batched POST. -/
def rtssCore (dryRun : Bool) (title : String) (maxSeason : Nat) (env : Env)
    (tvResults : List SearchResult) : Outcome × List HttpCall :=
  let mediaItem := chooseTvItem title tvResults
  let mediaId := mediaItem.id
  let look := get_existing_tv_requests env mediaId
  let existing := look.1
  let tr1 := HttpCall.getSearch title :: look.2
  let allSeasonsNeeded := List.range' 1 maxSeason
  let seasonsToRequest := allSeasonsNeeded.filter (fun s => decide (s ∉ existing))
  if seasonsToRequest.isEmpty then
    ({ status := "existing_request",
       message := "All seasons 1-" ++ toString maxSeason
         ++ " already available or requested",
       tmdb_id := some mediaId }, tr1)
  else if dryRun then
    ({ status := "dry_run",
       message := "Dry run - would request seasons " ++ pyListRepr seasonsToRequest,
       tmdb_id := some mediaId }, tr1)
  else
    let body : PostBody := { mediaId := mediaId, mediaType := "tv",
                             seasons := some seasonsToRequest, is4k := false }
    let tr2 := tr1 ++ [.post body]
    match env.post 0 with
    | .error e => (excOutcome e, tr2)
    | .ok r =>
      if r.status_code = 201 then
        ({ status := "new_request", message := successMsg existing seasonsToRequest,
           tmdb_id := some mediaId }, tr2)
      else if r.status_code = 409 then
        ({ status := "existing_request",
           message := "Request already exists (existing: " ++ pyListRepr existing ++ ")",
           tmdb_id := some mediaId }, tr2)
      else
        match getMsg r with
        | .error e => (excOutcome e, tr2)
        | .ok errorMsg =>
          let p := rtssErrorBranch env mediaId existing seasonsToRequest errorMsg
          (p.1, tr2 ++ p.2)

/-- Embedding of scraper.py request_tv_show_seasons (lines 325-507). -/
def request_tv_show_seasons (dryRun : Bool) (title : String) (maxSeason : Nat)
    (env : Env) : Outcome × List HttpCall :=
  match env.search with
  | .error e => (excOutcome e, [.getSearch title])
  | .ok sresp =>
    if sresp.status_code ≠ 200 then
      ({ status := "error", message := "Search failed: " ++ toString sresp.status_code,
         tmdb_id := none }, [.getSearch title])
    else
      match sresp.body with
      | .error e => (excOutcome e, [.getSearch title])
      | .ok sd =>
        if sd.results.isEmpty then
          ({ status := "not_found", message := "No results found in TMDB",
             tmdb_id := none }, [.getSearch title])
        else
          let tvResults := sd.results.filter (fun r => r.mediaType == some "tv")
          if tvResults.isEmpty then
            ({ status := "not_found", message := "No TV show results found",
               tmdb_id := none }, [.getSearch title])
          else rtssCore dryRun title maxSeason env tvResults

/-- Final handling of the last POST response in request_in_overseerr
(scraper.py lines 619-670): 201, 409, then the error-message branches,
including the unknown-media import retry at POST index nextPost. Returns
the outcome and the additional trace. -/
def rioFinish (env : Env) (nextPost : Nat) (mediaType : String) (mediaId : Nat)
    (r : PostResponse) : Outcome × List HttpCall :=
  if r.status_code = 201 then
    ({ status := "new_request", message := "Successfully requested",
       tmdb_id := some mediaId }, [])
  else if r.status_code = 409 then
    ({ status := "existing_request", message := "Request already exists",
       tmdb_id := some mediaId }, [])
  else
    match getMsg r with
    | .error e => (excOutcome e, [])
    | .ok errorMsg =>
      if pyIn "Failed to fetch movie details" errorMsg then
        ({ status := "not_found", message := "Movie not found in TMDB",
           tmdb_id := none }, [])
      else if pyIn "Failed to fetch TV show details" errorMsg then
        ({ status := "not_found", message := "TV show not found in TMDB",
           tmdb_id := none }, [])
      else if pyIn noEntityMsg errorMsg then
        let sbody : PostBody := { mediaId := mediaId, mediaType := mediaType,
                                  seasons := none, is4k := false }
        match env.post nextPost with
        | .error e => (excOutcome e, [.post sbody])
        | .ok sr =>
          if sr.status_code = 201 then
            ({ status := "new_request",
               message := "Successfully requested (media imported)",
               tmdb_id := some mediaId }, [.post sbody])
          else if sr.status_code = 409 then
            ({ status := "existing_request", message := "Request already exists",
               tmdb_id := some mediaId }, [.post sbody])
          else
            match getMsg sr with
            | .error e => (excOutcome e, [.post sbody])
            | .ok se =>
              if pyIn bugMsg se then
                ({ status := "error",
                   message := "Overseerr API bug - try requesting via web UI",
                   tmdb_id := none }, [.post sbody])
              else
                ({ status := "error", message := "Media not found in Overseerr database",
                   tmdb_id := none }, [.post sbody])
      else if pyIn "Cannot read properties of undefined" errorMsg then
        ({ status := "not_found", message := "TV show not found in Overseerr database",
           tmdb_id := none }, [])
      else if pyIn "No seasons available to request" errorMsg then
        ({ status := "existing_request", message := "Season already available or requested",
           tmdb_id := some mediaId }, [])
      else
        ({ status := "error", message := "Request failed: " ++ errorMsg,
           tmdb_id := none }, [])

/-- The single-season body used by the retry ladder. -/
def ladderBody (mediaId : Nat) (mediaType : String) (s : Nat) : PostBody :=
  { mediaId := mediaId, mediaType := mediaType, seasons := some [s], is4k := false }

/-- Core of request_in_overseerr after a nonempty search result list:
choose the match, handle dry run, POST the bare request, then for a tv
request that was neither created nor conflicting, walk the retry ladder
of seasons 1, 2, 3 (lines 583-617) before the final handling. -/
def rioCore (dryRun : Bool) (title mediaType : String) (env : Env)
    (results : List SearchResult) : Outcome × List HttpCall :=
  let mediaItem := chooseMedia title mediaType results
  let mediaId := mediaItem.id
  let body : PostBody := { mediaId := mediaId, mediaType := mediaType,
                           seasons := none, is4k := false }
  if dryRun then
    ({ status := "dry_run", message := "Dry run - would request",
       tmdb_id := some mediaId }, [.getSearch title])
  else
    let tr0 : List HttpCall := [.getSearch title, .post body]
    match env.post 0 with
    | .error e => (excOutcome e, tr0)
    | .ok r0 =>
      if mediaType = "tv" ∧ r0.status_code ≠ 201 ∧ r0.status_code ≠ 409 then
        match getMsg r0 with
        | .error e => (excOutcome e, tr0)
        | .ok m0 =>
          if pyIn "Failed to fetch TV show details" m0 || pyIn "404" m0
              || pyIn "Cannot read properties of undefined" m0 then
            let b1 := ladderBody mediaId mediaType 1
            match env.post 1 with
            | .error e => (excOutcome e, tr0 ++ [.post b1])
            | .ok r1 =>
              if r1.status_code ≠ 201 ∧ r1.status_code ≠ 409 then
                match getMsg r1 with
                | .error e => (excOutcome e, tr0 ++ [.post b1])
                | .ok m1 =>
                  if pyIn "No seasons available to request" m1 then
                    let b2 := ladderBody mediaId mediaType 2
                    match env.post 2 with
                    | .error e => (excOutcome e, tr0 ++ [.post b1, .post b2])
                    | .ok r2 =>
                      if r2.status_code ≠ 201 ∧ r2.status_code ≠ 409 then
                        match getMsg r2 with
                        | .error e => (excOutcome e, tr0 ++ [.post b1, .post b2])
                        | .ok m2 =>
                          if pyIn "No seasons available to request" m2 then
                            let b3 := ladderBody mediaId mediaType 3
                            match env.post 3 with
                            | .error e =>
                              (excOutcome e, tr0 ++ [.post b1, .post b2, .post b3])
                            | .ok r3 =>
                              let p := rioFinish env 4 mediaType mediaId r3
                              (p.1, tr0 ++ [.post b1, .post b2, .post b3] ++ p.2)
                          else
                            let p := rioFinish env 3 mediaType mediaId r2
                            (p.1, tr0 ++ [.post b1, .post b2] ++ p.2)
                      else
                        let p := rioFinish env 3 mediaType mediaId r2
                        (p.1, tr0 ++ [.post b1, .post b2] ++ p.2)
                  else
                    let p := rioFinish env 2 mediaType mediaId r1
                    (p.1, tr0 ++ [.post b1] ++ p.2)
              else
                let p := rioFinish env 2 mediaType mediaId r1
                (p.1, tr0 ++ [.post b1] ++ p.2)
          else
            let p := rioFinish env 1 mediaType mediaId r0
            (p.1, tr0 ++ p.2)
      else
        let p := rioFinish env 1 mediaType mediaId r0
        (p.1, tr0 ++ p.2)

/-- Embedding of scraper.py request_in_overseerr (lines 509-676). -/
def request_in_overseerr (dryRun : Bool) (title mediaType : String) (env : Env) :
    Outcome × List HttpCall :=
  match env.search with
  | .error e => (excOutcome e, [.getSearch title])
  | .ok sresp =>
    if sresp.status_code = 200 then
      match sresp.body with
      | .error e => (excOutcome e, [.getSearch title])
      | .ok sd =>
        if sd.results.isEmpty then
          ({ status := "not_found", message := "No results found in TMDB",
             tmdb_id := none }, [.getSearch title])
        else rioCore dryRun title mediaType env sd.results
    else
      ({ status := "error", message := "Search failed: " ++ toString sresp.status_code,
         tmdb_id := none }, [.getSearch title])

/-- The run summary built fresh each pass. -/
structure Summary where
  top_movies : List String
  top_shows : List TvShow
  new_downloads : List String
  existing_downloads : List String
  errors : List String
deriving DecidableEq, Inhabited, Repr

/-- Python truthiness of the extracted max season (if max_season:):
None and 0 are falsy. -/
def maxSeasonTruthy : Option Nat → Bool
  | some m => m != 0
  | none => false

/-- Outcome of processing one movie title in the run loop. -/
def processMovieOutcome (dryRun : Bool) (env : Env) (title : String) : Outcome :=
  (request_in_overseerr dryRun title "movie" env).1

/-- Outcome of processing one TV show in the run loop: season-ranged when a
truthy max season was extracted, the original entry point otherwise. -/
def processShowOutcome (dryRun : Bool) (env : Env) (s : TvShow) : Outcome :=
  let maxSeason := extract_season_number s.season_title
  if maxSeasonTruthy maxSeason then
    (request_tv_show_seasons dryRun s.title (maxSeason.getD 0) env).1
  else (request_in_overseerr dryRun s.title "tv" env).1

/-- The movie loop of run (scraper.py lines 936-948); the Nat argument
indexes the per-title transport environment. -/
def runMovies (dryRun : Bool) (envs : Nat → Env) :
    Nat → List String → Summary → Summary
  | _, [], s => s
  | k, t :: ts, s =>
    let o := processMovieOutcome dryRun (envs k) t
    let s1 :=
      if o.status = "new_request" then
        { s with new_downloads := s.new_downloads ++ [t ++ " (Movie)"] }
      else if o.status = "existing_request" then
        { s with existing_downloads := s.existing_downloads ++ [t ++ " (Movie)"] }
      else
        { s with errors :=
            s.errors ++ ["Failed to request movie: " ++ t ++ " - " ++ o.message] }
    runMovies dryRun envs (k + 1) ts s1

/-- The TV loop of run (scraper.py lines 951-977). -/
def runShows (dryRun : Bool) (envs : Nat → Env) :
    Nat → List TvShow → Summary → Summary
  | _, [], s => s
  | k, tv :: ts, s =>
    let o := processShowOutcome dryRun (envs k) tv
    let s1 :=
      if o.status = "new_request" then
        { s with new_downloads :=
            s.new_downloads ++ [tv.title ++ " (TV) - " ++ o.message] }
      else if o.status = "existing_request" then
        { s with existing_downloads :=
            s.existing_downloads ++ [tv.title ++ " (TV) - " ++ o.message] }
      else
        { s with errors :=
            s.errors ++ ["Failed to request TV show: " ++ tv.title ++ " - " ++ o.message] }
    runShows dryRun envs (k + 1) ts s1

/-- One pass of scraper.py run (lines 911-985): fetch, process every
movie then every show, producing the summary. Each processed title uses
the next environment from envs, movies first. -/
def run_once (dryRun : Bool) (country : String)
    (feed : Except String (List FeedRow)) (envs : Nat → Env) : Summary :=
  let p := get_netflix_top10 country feed
  let movies := p.1
  let tvShows := p.2
  if movies.isEmpty ∧ tvShows.isEmpty then
    { top_movies := [], top_shows := [], new_downloads := [],
      existing_downloads := [], errors := ["Failed to fetch Netflix top 10"] }
  else
    let s0 : Summary :=
      { top_movies := movies, top_shows := tvShows,
        new_downloads := [], existing_downloads := [], errors := [] }
    runShows dryRun envs movies.length tvShows (runMovies dryRun envs 0 movies s0)

/-- Python str.startswith, decided on the character lists (the
byte-position core test does not reduce in the kernel). -/
def pyStartswith (p s : String) : Bool := decide (p.data <+: s.data)

/-- The reporter prefix test: some entry of the list starts with the
title followed by an opening parenthesis. -/
def titleAppears (title : String) (l : List String) : Bool :=
  l.any (fun d => pyStartswith (title ++ " (") d)

/-- Embedding of scraper.py _get_title_status (lines 1003-1023). -/
def get_title_status (title : String) (s : Summary) : String :=
  if titleAppears title s.new_downloads then "✓ New Request"
  else if titleAppears title s.existing_downloads then "✓ Already Requested"
  else "✗ Failed"

/-- The five outcome statuses of the data model. -/
def statusStrings : List String :=
  ["new_request", "existing_request", "not_found", "dry_run", "error"]

/-- Specification-level form of the claim C3 ranking: keep the exact
case-insensitive title-and-kind matches when there are any, otherwise the
first element of the whole list whose date key is maximal (the head of a
stable descending sort). -/
def resolveSpec (title mediaType : String) (results : List SearchResult) :
    Option SearchResult :=
  match results.filter
      (fun r => displayName r == pyLower title && r.mediaType == some mediaType) with
  | m :: _ => some m
  | [] => firstMax dateKey results

/-- Specification-level list of the seasons whose individual POST (at
successive indices starting from the Nat argument) answers 201. -/
def succSpec (env : Env) : Nat → List Nat → List Nat
  | _, [] => []
  | k, s :: rest =>
    match env.post k with
    | .ok r => if r.status_code = 201 then s :: succSpec env (k + 1) rest
               else succSpec env (k + 1) rest
    | .error _ => succSpec env (k + 1) rest

/-- The individual-season POSTs of the fallback loop answer without a
raised exception, and with a decodable message when neither 201 nor 409:
under this condition the loop runs to completion. -/
def loopClean (env : Env) (k : Nat) (seasons : List Nat) : Prop :=
  ∀ i, i < seasons.length → ∃ r, env.post (k + i) = Except.ok r ∧
    (r.status_code ≠ 201 → r.status_code ≠ 409 → ∃ m, getMsg r = Except.ok m)

/-- Per-movie classification mirroring the run loop: the three components
are the new, existing and error entries the movie list contributes. -/
def movieTriple (dryRun : Bool) (envs : Nat → Env) :
    Nat → List String → List String × List String × List String
  | _, [] => ([], [], [])
  | k, t :: ts =>
    let o := processMovieOutcome dryRun (envs k) t
    let p := movieTriple dryRun envs (k + 1) ts
    if o.status = "new_request" then ((t ++ " (Movie)") :: p.1, p.2.1, p.2.2)
    else if o.status = "existing_request" then (p.1, (t ++ " (Movie)") :: p.2.1, p.2.2)
    else (p.1, p.2.1, ("Failed to request movie: " ++ t ++ " - " ++ o.message) :: p.2.2)

/-- Per-show classification mirroring the run loop. -/
def showTriple (dryRun : Bool) (envs : Nat → Env) :
    Nat → List TvShow → List String × List String × List String
  | _, [] => ([], [], [])
  | k, tv :: ts =>
    let o := processShowOutcome dryRun (envs k) tv
    let p := showTriple dryRun envs (k + 1) ts
    if o.status = "new_request" then
      ((tv.title ++ " (TV) - " ++ o.message) :: p.1, p.2.1, p.2.2)
    else if o.status = "existing_request" then
      (p.1, (tv.title ++ " (TV) - " ++ o.message) :: p.2.1, p.2.2)
    else
      (p.1, p.2.1,
        ("Failed to request TV show: " ++ tv.title ++ " - " ++ o.message) :: p.2.2)

/-- A season number is justified by the endpoint data when some responding
endpoint carries a record for it that the source accepts: a request of
accepted status in the requests listing, or a season entry of accepted
status or availability in the media or tv details. -/
def justifiedSeason (env : Env) (mediaId s : Nat) : Prop :=
  (∃ resp d r, env.reqList = Except.ok resp ∧ resp.body = Except.ok d ∧
     r ∈ d.results.getD [] ∧ r.tmdbId = some mediaId ∧ statusAccepted r.status = true ∧
     ∃ se ∈ r.seasons.getD [], se.seasonNumber = s)
  ∨ (∃ resp d, env.media = Except.ok resp ∧ resp.body = Except.ok d ∧
     ∃ se, (se ∈ d.seasons.getD []
         ∨ (∃ q ∈ d.requests.getD [], se ∈ q.seasons.getD [])
         ∨ se ∈ d.mediaInfoSeasons.getD [])
       ∧ okSeason se = true ∧ se.seasonNumber = s)
  ∨ (∃ resp d, env.tv = Except.ok resp ∧ resp.body = Except.ok d ∧
     ∃ se ∈ d.seasons.getD [], okSeason se = true ∧ se.seasonNumber = s)

/-- The requests-listing stage falls through to the media stage: it
answered without raising, and either with a non-200 status or with a
decoded body from which no season was extracted. -/
def reqStageFallsThrough (env : Env) (mediaId : Nat) : Prop :=
  ∃ resp, env.reqList = Except.ok resp ∧
    (resp.status_code ≠ 200 ∨
      ∃ d, resp.body = Except.ok d ∧ extract_seasons_from_requests d mediaId = [])

/-- A 200 search response carrying the given results. -/
def mkSearchOk (rs : List SearchResult) : Except String (HttpResp SearchData) :=
  .ok { status_code := 200, body := .ok { results := rs } }

/-- A 200 requests-listing response carrying the given entries. -/
def mkReqListOk (es : List ReqEntry) : Except String (HttpResp ReqListData) :=
  .ok { status_code := 200, body := .ok { results := some es } }

/-- A pending season entry with the given number. -/
def pendingSeason (n : Nat) : SeasonEntry :=
  { seasonNumber := n, status := some 2, available := false }

/-- A POST response with the given status code and message field. -/
def mkPost (code : Nat) (m : Option String) : Except String PostResponse :=
  .ok { status_code := code, msg := .ok m }

/-- A tv search result used by concrete scenarios. -/
def tvResultA : SearchResult :=
  { id := 5, mediaType := some "tv", title := none, name := some "A",
    releaseDate := none, firstAirDate := none }

/-- A search response offering exactly tvResultA. -/
def searchOkA : Except String (HttpResp SearchData) := mkSearchOk [tvResultA]

/-- A requests listing recording season 1 of media 5 as pending. -/
def reqListSeason1 : Except String (HttpResp ReqListData) :=
  mkReqListOk [{ tmdbId := some 5, status := some 2, seasons := some [pendingSeason 1] }]

/-- Environment where resolution succeeds and season 1 of the show is the
only existing season; POSTs raise if ever issued. -/
def envSeason1 : Env :=
  { search := searchOkA, reqList := reqListSeason1,
    media := .error "unused", tv := .error "unused",
    post := fun _ => .error "unused" }

/-- Environment where resolution succeeds and no season exists yet
(empty requests listing, then a 404 from the media endpoint). -/
def envNoExisting : Env :=
  { search := searchOkA,
    reqList := mkReqListOk [],
    media := .ok { status_code := 404, body := .error "no body" },
    tv := .error "unused", post := fun _ => .error "unused" }

/-- envSeason1 with a POST transport answering 201 to the first POST. -/
def envBatch201 : Env :=
  { search := searchOkA, reqList := reqListSeason1,
    media := .error "unused", tv := .error "unused",
    post := fun k => if k = 0 then mkPost 201 none else .error "unused" }

/-- envSeason1 with a POST transport driving the per-season fallback:
the batch fails with the no-seasons message, then season 2 is created,
season 3 conflicts and season 4 fails with another message. -/
def envFallback : Env :=
  { search := searchOkA, reqList := reqListSeason1,
    media := .error "unused", tv := .error "unused",
    post := fun k =>
      if k = 0 then mkPost 500 (some "No seasons available to request")
      else if k = 1 then mkPost 201 none
      else if k = 2 then mkPost 409 none
      else if k = 3 then mkPost 500 (some "boom")
      else .error "unused" }

/-- A second tv search result, for the unscoped path scenarios. -/
def tvResultB : SearchResult :=
  { id := 7, mediaType := some "tv", title := some "B",
    name := none, releaseDate := none, firstAirDate := none }

/-- Environment for the unscoped tv path walking the whole retry ladder:
the bare POST and the season 1 and season 2 retries fail with the
triggering messages, the season 3 retry is created. -/
def envLadder : Env :=
  { search := mkSearchOk [tvResultB],
    reqList := .error "unused", media := .error "unused", tv := .error "unused",
    post := fun k =>
      if k = 0 then mkPost 500 (some "Failed to fetch TV show details")
      else if k = 1 then mkPost 500 (some "No seasons available to request")
      else if k = 2 then mkPost 500 (some "No seasons available to request")
      else if k = 3 then mkPost 201 none
      else .error "unused" }

/-- Environment whose tv details list the same season number twice, with
the earlier endpoints yielding nothing usable: the requests listing is an
empty 200, the media endpoint answers 500. -/
def envDupTv : Env :=
  { search := .error "unused",
    reqList := mkReqListOk [],
    media := .ok { status_code := 500, body := .error "unused" },
    tv := .ok { status_code := 200,
                body := .ok { seasons := some [pendingSeason 1, pendingSeason 1] } },
    post := fun _ => .error "unused" }

/-- Feed rows listing the same title once as a film and once as a show. -/
def feedRowsAB : List FeedRow :=
  [{ country_name := "US", week := "2024-01-07", category := "Films",
     show_title := "A", season_title := "N/A" },
   { country_name := "US", week := "2024-01-07", category := "TV",
     show_title := "A", season_title := "Season 1" },
   { country_name := "FR", week := "2024-01-14", category := "Films",
     show_title := "C", season_title := "N/A" }]

/-- Movie environment for the duplicate-title scenario: the search finds
one movie and the bare POST is created. -/
def envMovieA : Env :=
  { search := mkSearchOk [{ id := 1, mediaType := some "movie", title := some "A",
                            name := none, releaseDate := some "2024-01-01",
                            firstAirDate := none }],
    reqList := .error "unused", media := .error "unused", tv := .error "unused",
    post := fun k => if k = 0 then mkPost 201 none else .error "unused" }

/-- Show environment for the duplicate-title scenario: resolution finds
media 2 whose only needed season already exists. -/
def envShowA : Env :=
  { search := mkSearchOk [{ id := 2, mediaType := some "tv", title := none,
                            name := some "A", releaseDate := none,
                            firstAirDate := none }],
    reqList := mkReqListOk [{ tmdbId := some 2, status := some 2,
                              seasons := some [pendingSeason 1] }],
    media := .error "unused", tv := .error "unused",
    post := fun _ => .error "unused" }

/-- Per-title transports for the duplicate-title run: the movie first,
then the show. -/
def envsAB : Nat → Env
  | 0 => envMovieA
  | _ => envShowA

/-- Search results where only the date ranking decides the winner. -/
def resultsByDate : List SearchResult :=
  [{ id := 11, mediaType := some "movie", title := some "Other", name := none,
     releaseDate := some "2019-05-01", firstAirDate := none },
   { id := 12, mediaType := some "movie", title := some "Another", name := none,
     releaseDate := some "2021-03-01", firstAirDate := none },
   { id := 13, mediaType := some "tv", title := none, name := some "Third",
     releaseDate := none, firstAirDate := some "2020-07-01" }]

/-- The season-less request body of the unscoped entry point. -/
def bareBody (mediaId : Nat) (mediaType : String) : PostBody :=
  { mediaId := mediaId, mediaType := mediaType, seasons := none, is4k := false }

/-- A transport on which every HTTP call raises. -/
def envErr : Env :=
  { search := .error "boom", reqList := .error "boom", media := .error "boom",
    tv := .error "boom", post := fun _ => .error "boom" }

theorem mem_insertAsc {a x : Nat} {l : List Nat} :
    a ∈ insertAsc x l ↔ a = x ∨ a ∈ l := by
  induction l with
  | nil => simp [insertAsc]
  | cons y ys ih =>
    simp only [insertAsc]
    split
    · simp
    · simp [ih]
      tauto

theorem perm_insertAsc (x : Nat) (l : List Nat) : (insertAsc x l).Perm (x :: l) := by
  induction l with
  | nil => simp [insertAsc]
  | cons y ys ih =>
    simp only [insertAsc]
    split
    · exact List.Perm.refl _
    · exact (ih.cons y).trans (List.Perm.swap x y ys)

theorem perm_pySorted (l : List Nat) : (pySorted l).Perm l := by
  induction l with
  | nil => simp [pySorted]
  | cons x xs ih =>
    simpa [pySorted] using (perm_insertAsc x (pySorted xs)).trans (ih.cons x)

theorem mem_pySorted {a : Nat} {l : List Nat} : a ∈ pySorted l ↔ a ∈ l :=
  (perm_pySorted l).mem_iff

theorem sorted_insertAsc {x : Nat} {l : List Nat} (h : List.Sorted (· ≤ ·) l) :
    List.Sorted (· ≤ ·) (insertAsc x l) := by
  induction l with
  | nil => simp [insertAsc]
  | cons y ys ih =>
    simp only [insertAsc]
    rw [List.sorted_cons] at h
    split
    · rename_i hxy
      rw [List.sorted_cons]
      refine ⟨?_, List.sorted_cons.mpr h⟩
      intro b hb
      rcases List.mem_cons.mp hb with rfl | hb
      · exact hxy
      · exact le_trans hxy (h.1 b hb)
    · rename_i hxy
      rw [List.sorted_cons]
      refine ⟨?_, ih h.2⟩
      intro b hb
      rcases mem_insertAsc.mp hb with rfl | hb
      · exact le_of_not_le hxy
      · exact h.1 b hb

theorem sorted_pySorted (l : List Nat) : List.Sorted (· ≤ ·) (pySorted l) := by
  induction l with
  | nil => simp [pySorted]
  | cons x xs ih => simpa [pySorted] using sorted_insertAsc ih

theorem nodup_pySorted {l : List Nat} (h : l.Nodup) : (pySorted l).Nodup :=
  (perm_pySorted l).nodup_iff.mpr h

theorem sorted_pySortedSet (l : List Nat) : List.Sorted (· ≤ ·) (pySortedSet l) :=
  sorted_pySorted _

theorem nodup_pySortedSet (l : List Nat) : (pySortedSet l).Nodup :=
  nodup_pySorted (List.nodup_dedup l)

theorem mem_pySortedSet {a : Nat} {l : List Nat} : a ∈ pySortedSet l ↔ a ∈ l :=
  mem_pySorted.trans List.mem_dedup

theorem headI_of_head? {α : Type} [Inhabited α] {l : List α} {a : α}
    (h : l.head? = some a) : l.headI = a := by
  cases l with
  | nil => simp at h
  | cons x xs => simp at h; simp [h]

theorem head?_pySortDescAux {α : Type} (key : α → String) :
    ∀ (l : List α) (a : α) (t : List α),
      (pySortDescAux key (a :: t) l).head? = some (firstMaxAux key a l) := by
  intro l
  induction l with
  | nil => intro a t; rfl
  | cons x xs ih =>
    intro a t
    simp only [pySortDescAux, insertDesc, firstMaxAux]
    split
    · exact ih x (a :: t)
    · exact ih a (insertDesc key x t)

theorem head?_pySortDesc {α : Type} (key : α → String) (x : α) (xs : List α) :
    (pySortDesc key (x :: xs)).head? = some (firstMaxAux key x xs) := by
  simp only [pySortDesc, pySortDescAux, insertDesc]
  exact head?_pySortDescAux key xs x []

theorem seasonMatchAt_succ_cons (c : Char) (cs : List Char) (i : Nat) :
    seasonMatchAt (c :: cs) (i + 1) = seasonMatchAt cs i := by
  unfold seasonMatchAt
  have h2 : (c :: cs).drop (i + 1 + 7) = cs.drop (i + 7) := by
    have h : i + 1 + 7 = (i + 7) + 1 := by omega
    rw [h, List.drop_succ_cons]
  rw [List.drop_succ_cons, h2]

theorem seasonValueAt_succ_cons (c : Char) (cs : List Char) (i : Nat) :
    seasonValueAt (c :: cs) (i + 1) = seasonValueAt cs i := by
  unfold seasonValueAt
  have h : i + 1 + 7 = (i + 7) + 1 := by omega
  rw [h, List.drop_succ_cons]

theorem seasonMatchAt_zero_cons (c : Char) (cs : List Char) :
    seasonMatchAt (c :: cs) 0 =
      ("Season ".data.isPrefixOf (c :: cs) &&
        !(((c :: cs).drop 7).takeWhile Char.isDigit).isEmpty) := by
  simp only [seasonMatchAt, List.drop_zero, Nat.zero_add]

theorem findSeasonNumber_cons (c : Char) (cs : List Char) :
    findSeasonNumber (c :: cs) =
      if "Season ".data.isPrefixOf (c :: cs) then
        if (((c :: cs).drop 7).takeWhile Char.isDigit).isEmpty then findSeasonNumber cs
        else some (digitsToNat (((c :: cs).drop 7).takeWhile Char.isDigit))
      else findSeasonNumber cs := rfl

theorem findSeasonNumber_none_iff :
    ∀ cs : List Char, findSeasonNumber cs = none ↔ ∀ i, seasonMatchAt cs i = false := by
  intro cs
  induction cs with
  | nil =>
    constructor
    · intro _ i
      simp [seasonMatchAt]
    · intro _
      rfl
  | cons c cs ih =>
    rw [findSeasonNumber_cons]
    cases hp : "Season ".data.isPrefixOf (c :: cs) with
    | false =>
      have h0 : seasonMatchAt (c :: cs) 0 = false := by
        rw [seasonMatchAt_zero_cons, hp, Bool.false_and]
      rw [if_neg (by simp), ih]
      constructor
      · intro h i
        cases i with
        | zero => exact h0
        | succ j => rw [seasonMatchAt_succ_cons]; exact h j
      · intro h i
        have hh := h (i + 1)
        rwa [seasonMatchAt_succ_cons] at hh
    | true =>
      rw [if_pos rfl]
      cases hd : (((c :: cs).drop 7).takeWhile Char.isDigit).isEmpty with
      | true =>
        have h0 : seasonMatchAt (c :: cs) 0 = false := by
          rw [seasonMatchAt_zero_cons, hd]
          simp
        rw [if_pos rfl, ih]
        constructor
        · intro h i
          cases i with
          | zero => exact h0
          | succ j => rw [seasonMatchAt_succ_cons]; exact h j
        · intro h i
          have hh := h (i + 1)
          rwa [seasonMatchAt_succ_cons] at hh
      | false =>
        rw [if_neg (by simp)]
        constructor
        · intro h
          simp at h
        · intro h
          have h0 := h 0
          rw [seasonMatchAt_zero_cons, hp, hd] at h0
          simp at h0

theorem findSeasonNumber_some :
    ∀ (cs : List Char) (n : Nat), findSeasonNumber cs = some n →
      ∃ i, seasonMatchAt cs i = true ∧ (∀ j, j < i → seasonMatchAt cs j = false)
        ∧ n = seasonValueAt cs i := by
  intro cs
  induction cs with
  | nil =>
    intro n h
    simp [findSeasonNumber] at h
  | cons c cs ih =>
    intro n h
    rw [findSeasonNumber_cons] at h
    cases hp : "Season ".data.isPrefixOf (c :: cs) with
    | false =>
      rw [if_neg (by rw [hp]; simp)] at h
      obtain ⟨i, h1, h2, h3⟩ := ih n h
      refine ⟨i + 1, ?_, ?_, ?_⟩
      · rw [seasonMatchAt_succ_cons]; exact h1
      · intro j hj
        cases j with
        | zero => rw [seasonMatchAt_zero_cons, hp, Bool.false_and]
        | succ k => rw [seasonMatchAt_succ_cons]; exact h2 k (by omega)
      · rw [seasonValueAt_succ_cons]; exact h3
    | true =>
      rw [if_pos hp] at h
      cases hd : (((c :: cs).drop 7).takeWhile Char.isDigit).isEmpty with
      | true =>
        rw [if_pos hd] at h
        obtain ⟨i, h1, h2, h3⟩ := ih n h
        refine ⟨i + 1, ?_, ?_, ?_⟩
        · rw [seasonMatchAt_succ_cons]; exact h1
        · intro j hj
          cases j with
          | zero => rw [seasonMatchAt_zero_cons, hd]; simp
          | succ k => rw [seasonMatchAt_succ_cons]; exact h2 k (by omega)
        · rw [seasonValueAt_succ_cons]; exact h3
      | false =>
        rw [if_neg (by rw [hd]; simp)] at h
        refine ⟨0, ?_, ?_, ?_⟩
        · rw [seasonMatchAt_zero_cons, hp, hd]; rfl
        · intro j hj; omega
        · have hn := (Option.some.inj h).symm
          simpa [seasonValueAt] using hn

/-- C4: the season extractor returns indeterminate for the empty string or
the literal N/A; else 1 when the text contains Limited Series; else the
integer captured by the leftmost match of Season followed by digits, and
indeterminate when no position matches - in exactly that order. -/
theorem claim_C4_season_extractor (s : String) :
    ((s = "" ∨ s = "N/A") → extract_season_number s = none)
    ∧ (s ≠ "" → s ≠ "N/A" → pyIn "Limited Series" s = true →
        extract_season_number s = some 1)
    ∧ (s ≠ "" → s ≠ "N/A" → pyIn "Limited Series" s = false →
        (extract_season_number s = none ↔ ∀ i, seasonMatchAt s.data i = false)
        ∧ (∀ n, extract_season_number s = some n →
            ∃ i, seasonMatchAt s.data i = true
              ∧ (∀ j, j < i → seasonMatchAt s.data j = false)
              ∧ n = seasonValueAt s.data i)) := by
  refine ⟨?_, ?_, ?_⟩
  · rintro (rfl | rfl) <;> rfl
  · intro h1 h2 h3
    simp [extract_season_number, h1, h2, h3]
  · intro h1 h2 h3
    have he : extract_season_number s = findSeasonNumber s.data := by
      simp [extract_season_number, h1, h2, h3]
    rw [he]
    exact ⟨findSeasonNumber_none_iff s.data, fun n h => findSeasonNumber_some s.data n h⟩

theorem claim_C4_season_extractor_witness :
    ("Show: Season 3" ≠ "" ∧ ("Show: Season 3" : String) ≠ "N/A"
      ∧ pyIn "Limited Series" "Show: Season 3" = false
      ∧ extract_season_number "Show: Season 3" = some 3)
    ∧ ∃ i, seasonMatchAt "Show: Season 3".data i = true
        ∧ (∀ j, j < i → seasonMatchAt "Show: Season 3".data j = false)
        ∧ 3 = seasonValueAt "Show: Season 3".data i :=
  ⟨by refine ⟨by decide, by decide, by decide, ?_⟩; decide,
   ((claim_C4_season_extractor "Show: Season 3").2.2 (by decide) (by decide)
     (by decide)).2 3 (by decide)⟩

/-- C3: with a nonempty result list, the resolver keeps the exact
case-insensitive displayed-name-and-kind matches when any exist and takes
the first; otherwise it takes the first result whose release or first-air
date string (missing dates as the empty string) is maximal, which is the
head of the stable descending sort. -/
theorem claim_C3_title_resolver (title mediaType : String)
    (results : List SearchResult) (h : results ≠ []) :
    some (chooseMedia title mediaType results) = resolveSpec title mediaType results := by
  cases results with
  | nil => exact absurd rfl h
  | cons x xs =>
    cases xs with
    | nil =>
      simp only [chooseMedia, resolveSpec]
      rw [if_neg (by simp)]
      by_cases hpx : (displayName x == pyLower title && x.mediaType == some mediaType) = true
      · simp [List.filter_cons, hpx]
      · simp only [Bool.not_eq_true] at hpx
        simp [List.filter_cons, hpx, firstMax, firstMaxAux]
    | cons y ys =>
      simp only [chooseMedia, resolveSpec]
      rw [if_pos (by simp)]
      cases hf : List.filter
          (fun r => displayName r == pyLower title && r.mediaType == some mediaType)
          (x :: y :: ys) with
      | cons m ms => simp [hf]
      | nil =>
        show some ((pySortDesc dateKey (x :: y :: ys)).headI) = firstMax dateKey (x :: y :: ys)
        simp only [firstMax]
        exact congrArg some (headI_of_head? (head?_pySortDesc dateKey x (y :: ys)))

theorem claim_C3_title_resolver_witness :
    (resultsByDate ≠ []
      ∧ some (chooseMedia "x" "movie" resultsByDate) = resolveSpec "x" "movie" resultsByDate)
    ∧ (chooseMedia "x" "movie" resultsByDate).id = 12 :=
  ⟨⟨by decide, claim_C3_title_resolver "x" "movie" resultsByDate (by decide)⟩, by decide⟩

theorem pyStrLt_iff (a b : String) : pyStrLt a b = true ↔ a < b := by
  unfold pyStrLt
  rw [decide_eq_true_iff]
  exact String.lt_iff_toList_lt.symm

theorem pyMax_foldl_mem :
    ∀ (xs : List String) (a : String),
      xs.foldl (fun cur y => if pyStrLt cur y then y else cur) a = a
      ∨ xs.foldl (fun cur y => if pyStrLt cur y then y else cur) a ∈ xs := by
  intro xs
  induction xs with
  | nil => intro a; left; rfl
  | cons y ys ih =>
    intro a
    rcases ih (if pyStrLt a y then y else a) with h | h
    · simp only [List.foldl_cons] at *
      rw [h]
      split
      · right; exact List.mem_cons_self y ys
      · left; rfl
    · right
      exact List.mem_cons_of_mem y h

theorem le_pyMax_foldl :
    ∀ (xs : List String) (a : String),
      a ≤ xs.foldl (fun cur y => if pyStrLt cur y then y else cur) a := by
  intro xs
  induction xs with
  | nil => intro a; exact le_refl a
  | cons y ys ih =>
    intro a
    simp only [List.foldl_cons]
    refine le_trans ?_ (ih (if pyStrLt a y then y else a))
    split
    · rename_i hlt
      exact le_of_lt ((pyStrLt_iff a y).mp hlt)
    · exact le_refl a

theorem mem_le_pyMax_foldl :
    ∀ (xs : List String) (a b : String), b ∈ xs →
      b ≤ xs.foldl (fun cur y => if pyStrLt cur y then y else cur) a := by
  intro xs
  induction xs with
  | nil => intro a b h; simp at h
  | cons y ys ih =>
    intro a b h
    rcases List.mem_cons.mp h with rfl | h
    · simp only [List.foldl_cons]
      refine le_trans ?_ (le_pyMax_foldl ys (if pyStrLt a b then b else a))
      split
      · exact le_refl b
      · rename_i hlt
        rw [pyStrLt_iff] at hlt
        exact le_of_not_lt hlt
    · exact ih _ b h

theorem pyMax_mem {l : List String} (h : l ≠ []) : pyMax l ∈ l := by
  cases l with
  | nil => exact absurd rfl h
  | cons x xs =>
    rcases pyMax_foldl_mem xs x with hm | hm
    · rw [pyMax, hm]; exact List.mem_cons_self x xs
    · exact List.mem_cons_of_mem x hm

theorem le_pyMax {l : List String} {b : String} (h : b ∈ l) : b ≤ pyMax l := by
  cases l with
  | nil => simp at h
  | cons x xs =>
    rcases List.mem_cons.mp h with rfl | hm
    · exact le_pyMax_foldl xs b
    · exact mem_le_pyMax_foldl xs x b hm

/-- C5: the feed fetcher selects the maximal period string among the rows
of the configured country, outputs only rows of that country and period,
caps both lists at 10, and yields two empty lists on a transport or parse
failure or when the country has no rows. -/
theorem claim_C5_feed_fetcher (country : String) (feed : Except String (List FeedRow)) :
    ((get_netflix_top10 country feed).1.length ≤ 10
      ∧ (get_netflix_top10 country feed).2.length ≤ 10)
    ∧ (∀ e, feed = Except.error e → get_netflix_top10 country feed = ([], []))
    ∧ (∀ rows, feed = Except.ok rows →
        ((rows.filter (fun r => r.country_name == country)).isEmpty = true →
          get_netflix_top10 country feed = ([], []))
        ∧ ((rows.filter (fun r => r.country_name == country)).isEmpty = false →
            (∃ r ∈ rows.filter (fun r => r.country_name == country), r.week =
              pyMax ((rows.filter (fun r => r.country_name == country)).map
                (fun r => r.week)))
            ∧ (∀ r ∈ rows.filter (fun r => r.country_name == country), r.week ≤
                pyMax ((rows.filter (fun r => r.country_name == country)).map
                  (fun r => r.week)))
            ∧ (∀ t ∈ (get_netflix_top10 country feed).1, ∃ r ∈ rows,
                r.country_name = country
                ∧ r.week = pyMax ((rows.filter (fun r => r.country_name == country)).map
                    (fun r => r.week))
                ∧ r.category = "Films" ∧ r.show_title = t)
            ∧ (∀ s ∈ (get_netflix_top10 country feed).2, ∃ r ∈ rows,
                r.country_name = country
                ∧ r.week = pyMax ((rows.filter (fun r => r.country_name == country)).map
                    (fun r => r.week))
                ∧ r.category = "TV" ∧ r.show_title = s.title
                ∧ r.season_title = s.season_title))) := by
  refine ⟨?_, ?_, ?_⟩
  · cases feed with
    | error e => exact ⟨by simp [get_netflix_top10], by simp [get_netflix_top10]⟩
    | ok rows =>
      simp only [get_netflix_top10]
      split
      · exact ⟨by simp, by simp⟩
      · constructor
        · rw [List.length_take]; exact min_le_left 10 _
        · rw [List.length_take]; exact min_le_left 10 _
  · intro e he
    subst he
    rfl
  · intro rows hr
    subst hr
    constructor
    · intro hempty
      simp only [get_netflix_top10]
      rw [if_pos hempty]
    · intro hne
      have hcdne : rows.filter (fun r => r.country_name == country) ≠ [] := by
        simpa [List.isEmpty_iff] using hne
      have hmapne : (rows.filter (fun r => r.country_name == country)).map
          (fun r => r.week) ≠ [] := by
        simpa using hcdne
      refine ⟨?_, ?_, ?_, ?_⟩
      · obtain ⟨r, hrmem, hrw⟩ := List.mem_map.mp (pyMax_mem hmapne)
        exact ⟨r, hrmem, hrw⟩
      · intro r hrmem
        exact le_pyMax (List.mem_map.mpr ⟨r, hrmem, rfl⟩)
      · intro t ht
        simp only [get_netflix_top10] at ht
        rw [if_neg (by simp [hne])] at ht
        have ht2 := List.take_subset 10 _ ht
        obtain ⟨r, hrmem, rfl⟩ := List.mem_map.mp ht2
        have h1 := List.mem_filter.mp hrmem
        have h2 := List.mem_filter.mp h1.1
        have h3 := List.mem_filter.mp h2.1
        exact ⟨r, h3.1, by simpa using h3.2, by simpa using h2.2, by simpa using h1.2, rfl⟩
      · intro s hs
        simp only [get_netflix_top10] at hs
        rw [if_neg (by simp [hne])] at hs
        have hs2 := List.take_subset 10 _ hs
        obtain ⟨r, hrmem, rfl⟩ := List.mem_map.mp hs2
        have h1 := List.mem_filter.mp hrmem
        have h2 := List.mem_filter.mp h1.1
        have h3 := List.mem_filter.mp h2.1
        exact ⟨r, h3.1, by simpa using h3.2, by simpa using h2.2, by simpa using h1.2,
          rfl, rfl⟩

theorem claim_C5_feed_fetcher_witness :
    (feedRowsAB.filter (fun r => r.country_name == "US")).isEmpty = false
    ∧ ∃ r ∈ feedRowsAB.filter (fun r => r.country_name == "US"), r.week =
        pyMax ((feedRowsAB.filter (fun r => r.country_name == "US")).map
          (fun r => r.week)) :=
  ⟨by decide,
   ((((claim_C5_feed_fetcher "US" (Except.ok feedRowsAB)).2.2 feedRowsAB rfl).2)
     (by decide)).1⟩

theorem okSeason_pos {se : SeasonEntry} (h : okSeason se = true) : 0 < se.seasonNumber := by
  have := (Bool.and_eq_true _ _).mp h
  simpa using this.1

theorem mem_seasonNumbersOk {s : Nat} {ss : List SeasonEntry} :
    s ∈ seasonNumbersOk ss ↔ ∃ se ∈ ss, okSeason se = true ∧ se.seasonNumber = s := by
  simp only [seasonNumbersOk, List.mem_map, List.mem_filter]
  tauto

theorem mem_reqEntrySeasons {mediaId s : Nat} {r : ReqEntry}
    (h : s ∈ reqEntrySeasons mediaId r) :
    0 < s ∧ r.tmdbId = some mediaId ∧ statusAccepted r.status = true
      ∧ ∃ se ∈ r.seasons.getD [], se.seasonNumber = s := by
  unfold reqEntrySeasons at h
  split at h
  · rename_i hcond
    have hc := (Bool.and_eq_true _ _).mp hcond
    have hid : r.tmdbId = some mediaId := by simpa using hc.1
    cases hss : r.seasons with
    | none => rw [hss] at h; simp at h
    | some ss =>
      rw [hss] at h
      simp only [List.mem_filter, List.mem_map] at h
      obtain ⟨⟨se, hse, hnum⟩, hpos⟩ := h
      exact ⟨by simpa using hpos, hid, hc.2, se, by simpa [hss] using hse, hnum⟩
  · simp at h

theorem mem_extract_requests {d : ReqListData} {mediaId s : Nat}
    (h : s ∈ extract_seasons_from_requests d mediaId) :
    0 < s ∧ ∃ r ∈ d.results.getD [], r.tmdbId = some mediaId
      ∧ statusAccepted r.status = true ∧ ∃ se ∈ r.seasons.getD [], se.seasonNumber = s := by
  unfold extract_seasons_from_requests at h
  rw [mem_pySortedSet] at h
  obtain ⟨l, hl, hsl⟩ := List.mem_flatten.mp h
  obtain ⟨r, hr, rfl⟩ := List.mem_map.mp hl
  obtain ⟨hpos, hid, hst, hse⟩ := mem_reqEntrySeasons hsl
  exact ⟨hpos, r, hr, hid, hst, hse⟩

theorem mem_extract_media {d : MediaData} {s : Nat}
    (h : s ∈ extract_seasons_from_media d) :
    0 < s ∧ ∃ se, (se ∈ d.seasons.getD []
        ∨ (∃ q ∈ d.requests.getD [], se ∈ q.seasons.getD [])
        ∨ se ∈ d.mediaInfoSeasons.getD [])
      ∧ okSeason se = true ∧ se.seasonNumber = s := by
  unfold extract_seasons_from_media at h
  rw [mem_pySortedSet] at h
  rcases List.mem_append.mp h with h1 | h2
  · rcases List.mem_append.mp h1 with ha | hb
    · obtain ⟨se, hse, hok, hnum⟩ := mem_seasonNumbersOk.mp ha
      exact ⟨hnum ▸ okSeason_pos hok, se, Or.inl hse, hok, hnum⟩
    · obtain ⟨l, hl, hsl⟩ := List.mem_flatten.mp hb
      obtain ⟨q, hq, rfl⟩ := List.mem_map.mp hl
      obtain ⟨se, hse, hok, hnum⟩ := mem_seasonNumbersOk.mp hsl
      exact ⟨hnum ▸ okSeason_pos hok, se, Or.inr (Or.inl ⟨q, hq, hse⟩), hok, hnum⟩
  · obtain ⟨se, hse, hok, hnum⟩ := mem_seasonNumbersOk.mp h2
    exact ⟨hnum ▸ okSeason_pos hok, se, Or.inr (Or.inr hse), hok, hnum⟩

theorem mem_extract_tv {d : TvData} {s : Nat} (h : s ∈ extract_seasons_from_tv d) :
    0 < s ∧ ∃ se ∈ d.seasons.getD [], okSeason se = true ∧ se.seasonNumber = s := by
  unfold extract_seasons_from_tv at h
  rw [mem_pySorted] at h
  obtain ⟨se, hse, hok, hnum⟩ := mem_seasonNumbersOk.mp h
  exact ⟨hnum ▸ okSeason_pos hok, se, hse, hok, hnum⟩

theorem lookupStage_shape (env : Env) (mediaId : Nat) :
    (lookupMediaStage env mediaId).1 = []
    ∨ (∃ resp d, env.media = Except.ok resp ∧ resp.body = Except.ok d ∧
        (lookupMediaStage env mediaId).1 = extract_seasons_from_media d)
    ∨ (∃ resp d, env.tv = Except.ok resp ∧ resp.body = Except.ok d ∧
        (lookupMediaStage env mediaId).1 = extract_seasons_from_tv d) := by
  unfold lookupMediaStage
  split
  · left; rfl
  · rename_i mresp hm
    split
    · split
      · left; rfl
      · rename_i d hb
        right; left
        exact ⟨mresp, d, hm, hb, rfl⟩
    · split
      · left; rfl
      · split
        · left; rfl
        · rename_i tresp ht
          split
          · split
            · left; rfl
            · rename_i td htb
              right; right
              exact ⟨tresp, td, ht, htb, rfl⟩
          · left; rfl

theorem getExisting_cases (env : Env) (mediaId : Nat) :
    (get_existing_tv_requests env mediaId).1 = []
    ∨ (∃ resp d, env.reqList = Except.ok resp ∧ resp.body = Except.ok d ∧
        (get_existing_tv_requests env mediaId).1 = extract_seasons_from_requests d mediaId)
    ∨ (get_existing_tv_requests env mediaId).1 = (lookupMediaStage env mediaId).1 := by
  simp only [get_existing_tv_requests]
  split
  · left; rfl
  · rename_i rresp hr
    split
    · split
      · left; rfl
      · rename_i d hb
        split
        · right; right; rfl
        · right; left; exact ⟨rresp, d, hr, hb, rfl⟩
    · right; right; rfl

theorem getExisting_shape (env : Env) (mediaId : Nat) :
    (get_existing_tv_requests env mediaId).1 = []
    ∨ (∃ resp d, env.reqList = Except.ok resp ∧ resp.body = Except.ok d ∧
        (get_existing_tv_requests env mediaId).1 = extract_seasons_from_requests d mediaId)
    ∨ (∃ resp d, env.media = Except.ok resp ∧ resp.body = Except.ok d ∧
        (get_existing_tv_requests env mediaId).1 = extract_seasons_from_media d)
    ∨ (∃ resp d, env.tv = Except.ok resp ∧ resp.body = Except.ok d ∧
        (get_existing_tv_requests env mediaId).1 = extract_seasons_from_tv d) := by
  rcases getExisting_cases env mediaId with h | h | h
  · exact Or.inl h
  · exact Or.inr (Or.inl h)
  · rcases lookupStage_shape env mediaId with h2 | ⟨resp, d, hm, hb, h2⟩ | ⟨resp, d, hm, hb, h2⟩
    · exact Or.inl (h.trans h2)
    · exact Or.inr (Or.inr (Or.inl ⟨resp, d, hm, hb, h.trans h2⟩))
    · exact Or.inr (Or.inr (Or.inr ⟨resp, d, hm, hb, h.trans h2⟩))

theorem getExisting_fallsThrough (env : Env) (mediaId : Nat)
    (h : reqStageFallsThrough env mediaId) :
    (get_existing_tv_requests env mediaId).1 = (lookupMediaStage env mediaId).1 := by
  obtain ⟨resp, hr, hcase⟩ := h
  simp only [get_existing_tv_requests]
  split
  · rename_i e heq
    rw [hr] at heq
    cases heq
  · rename_i rresp heq
    rw [hr] at heq
    injection heq with heq
    subst heq
    split
    · rename_i h200
      rcases hcase with hne | ⟨d, hb, hempty⟩
      · exact absurd h200 hne
      · split
        · rename_i e heqb
          rw [hb] at heqb
          cases heqb
        · rename_i d2 heqb
          rw [hb] at heqb
          injection heqb with heqb
          subst heqb
          rw [if_pos (by rw [hempty]; rfl)]
    · rfl

theorem lookupStage_404 (env : Env) (mediaId : Nat) (mresp : HttpResp MediaData)
    (hm : env.media = Except.ok mresp) (h404 : mresp.status_code = 404) :
    (lookupMediaStage env mediaId).1 = [] := by
  obtain ⟨code, body⟩ := mresp
  simp only at h404
  subst h404
  unfold lookupMediaStage
  rw [hm]
  rfl

theorem getExisting_reqError (env : Env) (mediaId : Nat) (e : String)
    (hr : env.reqList = Except.error e) :
    (get_existing_tv_requests env mediaId).1 = [] := by
  simp only [get_existing_tv_requests]
  split
  · rfl
  · rename_i rresp heq
    rw [hr] at heq
    cases heq

theorem lookupStage_mediaError (env : Env) (mediaId : Nat) (e : String)
    (hm : env.media = Except.error e) :
    (lookupMediaStage env mediaId).1 = [] := by
  unfold lookupMediaStage
  split
  · rfl
  · rename_i mresp heq
    rw [hm] at heq
    cases heq

theorem lookupStage_tvError (env : Env) (mediaId : Nat)
    (mresp : HttpResp MediaData) (e : String)
    (hm : env.media = Except.ok mresp) (h200 : mresp.status_code ≠ 200)
    (h404 : mresp.status_code ≠ 404) (ht : env.tv = Except.error e) :
    (lookupMediaStage env mediaId).1 = [] := by
  unfold lookupMediaStage
  split
  · rfl
  · rename_i mresp2 heq
    rw [hm] at heq
    injection heq with heq
    subst heq
    rw [if_neg h200, if_neg h404]
    split
    · rfl
    · rename_i tresp heqt
      rw [ht] at heqt
      cases heqt

theorem lookupStage_tvNon200 (env : Env) (mediaId : Nat)
    (mresp : HttpResp MediaData) (tresp : HttpResp TvData)
    (hm : env.media = Except.ok mresp) (h200 : mresp.status_code ≠ 200)
    (h404 : mresp.status_code ≠ 404) (ht : env.tv = Except.ok tresp)
    (ht200 : tresp.status_code ≠ 200) :
    (lookupMediaStage env mediaId).1 = [] := by
  unfold lookupMediaStage
  split
  · rfl
  · rename_i mresp2 heq
    rw [hm] at heq
    injection heq with heq
    subst heq
    rw [if_neg h200, if_neg h404]
    split
    · rfl
    · rename_i tresp2 heqt
      rw [ht] at heqt
      injection heqt with heqt
      subst heqt
      rw [if_neg ht200]

/-- C8 amended: the existing-request inspector returns a sorted ascending
list of positive season numbers, each justified by a record the source
accepts in the responding endpoint (a request of accepted status in the
requests listing, or a season entry of accepted status or availability in
the media or tv details); a 404 from the media endpoint, a raised
exception, or a failing status on every endpoint yields the empty list.
The list is duplicate-free whenever the tv details fallback contributes
no repeated accepted season number; the source does not de-duplicate on
that one path. -/
theorem claim_C8_existing_lookup (env : Env) (mediaId : Nat) :
    List.Sorted (· ≤ ·) (get_existing_tv_requests env mediaId).1
    ∧ 0 ∉ (get_existing_tv_requests env mediaId).1
    ∧ (∀ s ∈ (get_existing_tv_requests env mediaId).1, justifiedSeason env mediaId s)
    ∧ ((∀ resp d, env.tv = Except.ok resp → resp.body = Except.ok d →
          (seasonNumbersOk (d.seasons.getD [])).Nodup) →
        (get_existing_tv_requests env mediaId).1.Nodup)
    ∧ (∀ e, env.reqList = Except.error e → (get_existing_tv_requests env mediaId).1 = [])
    ∧ (reqStageFallsThrough env mediaId →
        (∀ mresp, env.media = Except.ok mresp → mresp.status_code = 404 →
          (get_existing_tv_requests env mediaId).1 = [])
        ∧ (∀ e, env.media = Except.error e → (get_existing_tv_requests env mediaId).1 = [])
        ∧ (∀ mresp, env.media = Except.ok mresp → mresp.status_code ≠ 200 →
            mresp.status_code ≠ 404 →
            (∀ e, env.tv = Except.error e → (get_existing_tv_requests env mediaId).1 = [])
            ∧ (∀ tresp, env.tv = Except.ok tresp → tresp.status_code ≠ 200 →
                (get_existing_tv_requests env mediaId).1 = []))) := by
  refine ⟨?_, ?_, ?_, ?_, ?_, ?_⟩
  · rcases getExisting_shape env mediaId with h | ⟨_, _, _, _, h⟩ | ⟨_, _, _, _, h⟩
        | ⟨_, _, _, _, h⟩ <;> rw [h]
    · exact List.sorted_nil
    · exact sorted_pySortedSet _
    · exact sorted_pySortedSet _
    · exact sorted_pySorted _
  · intro h0
    rcases getExisting_shape env mediaId with h | ⟨_, _, _, _, h⟩ | ⟨_, _, _, _, h⟩
        | ⟨_, _, _, _, h⟩ <;> rw [h] at h0
    · simp at h0
    · exact absurd (mem_extract_requests h0).1 (by omega)
    · exact absurd (mem_extract_media h0).1 (by omega)
    · exact absurd (mem_extract_tv h0).1 (by omega)
  · intro s hs
    rcases getExisting_shape env mediaId with h | ⟨resp, d, hr, hb, h⟩
        | ⟨resp, d, hm, hb, h⟩ | ⟨resp, d, ht, hb, h⟩ <;> rw [h] at hs
    · simp at hs
    · obtain ⟨_, r, hrm, hid, hst, se, hsem, hnum⟩ := mem_extract_requests hs
      exact Or.inl ⟨resp, d, r, hr, hb, hrm, hid, hst, se, hsem, hnum⟩
    · obtain ⟨_, se, hloc, hok, hnum⟩ := mem_extract_media hs
      exact Or.inr (Or.inl ⟨resp, d, hm, hb, se, hloc, hok, hnum⟩)
    · obtain ⟨_, se, hsem, hok, hnum⟩ := mem_extract_tv hs
      exact Or.inr (Or.inr ⟨resp, d, ht, hb, se, hsem, hok, hnum⟩)
  · intro htv
    rcases getExisting_shape env mediaId with h | ⟨_, _, _, _, h⟩ | ⟨_, _, _, _, h⟩
        | ⟨resp, d, ht, hb, h⟩ <;> rw [h]
    · exact List.nodup_nil
    · exact nodup_pySortedSet _
    · exact nodup_pySortedSet _
    · exact nodup_pySorted (htv resp d ht hb)
  · exact fun e hr => getExisting_reqError env mediaId e hr
  · intro hft
    have hstage := getExisting_fallsThrough env mediaId hft
    refine ⟨?_, ?_, ?_⟩
    · intro mresp hm h404
      rw [hstage]
      exact lookupStage_404 env mediaId mresp hm h404
    · intro e hm
      rw [hstage]
      exact lookupStage_mediaError env mediaId e hm
    · intro mresp hm h200 h404
      refine ⟨?_, ?_⟩
      · intro e ht
        rw [hstage]
        exact lookupStage_tvError env mediaId mresp e hm h200 h404 ht
      · intro tresp ht ht200
        rw [hstage]
        exact lookupStage_tvNon200 env mediaId mresp tresp hm h200 h404 ht ht200

theorem claim_C8_existing_lookup_counterexample :
    (get_existing_tv_requests envDupTv 7).1 = [1, 1]
    ∧ ¬ (get_existing_tv_requests envDupTv 7).1.Nodup := by
  refine ⟨by decide, ?_⟩
  intro h
  rw [show (get_existing_tv_requests envDupTv 7).1 = [1, 1] from by decide] at h
  simp at h

theorem claim_C8_existing_lookup_witness :
    reqStageFallsThrough envNoExisting 5
    ∧ (get_existing_tv_requests envNoExisting 5).1 = []
    ∧ List.Sorted (· ≤ ·) (get_existing_tv_requests envNoExisting 5).1
    ∧ (get_existing_tv_requests envNoExisting 5).1.Nodup := by
  have hft : reqStageFallsThrough envNoExisting 5 :=
    ⟨⟨200, Except.ok ⟨some []⟩⟩, rfl, Or.inr ⟨⟨some []⟩, rfl, rfl⟩⟩
  have c := claim_C8_existing_lookup envNoExisting 5
  exact ⟨hft, (c.2.2.2.2.2 hft).1 ⟨404, Except.error "no body"⟩ rfl rfl, c.1,
    c.2.2.2.1 (fun resp d h => Except.noConfusion h)⟩

theorem rtss_resolved (dryRun : Bool) (title : String) (M : Nat) (env : Env)
    (sd : SearchData)
    (h1 : env.search = Except.ok ⟨200, Except.ok sd⟩)
    (h2 : sd.results.isEmpty = false)
    (h3 : (sd.results.filter (fun r => r.mediaType == some "tv")).isEmpty = false) :
    request_tv_show_seasons dryRun title M env =
      rtssCore dryRun title M env
        (sd.results.filter (fun r => r.mediaType == some "tv")) := by
  simp only [request_tv_show_seasons]
  split
  · rename_i e heq
    rw [h1] at heq
    cases heq
  · rename_i sresp heq
    rw [h1] at heq
    injection heq with heq
    subst heq
    simp [h2, h3]

theorem rio_resolved (dryRun : Bool) (title mediaType : String) (env : Env)
    (sd : SearchData)
    (h1 : env.search = Except.ok ⟨200, Except.ok sd⟩)
    (h2 : sd.results.isEmpty = false) :
    request_in_overseerr dryRun title mediaType env =
      rioCore dryRun title mediaType env sd.results := by
  simp only [request_in_overseerr]
  split
  · rename_i e heq
    rw [h1] at heq
    cases heq
  · rename_i sresp heq
    rw [h1] at heq
    injection heq with heq
    subst heq
    simp [h2]

theorem stage_trace_no_posts (env : Env) (mediaId : Nat) :
    postCalls (lookupMediaStage env mediaId).2 = [] := by
  unfold lookupMediaStage
  split
  · rfl
  · split
    · split <;> rfl
    · split
      · rfl
      · split
        · rfl
        · split
          · split <;> rfl
          · rfl

theorem lookup_trace_no_posts (env : Env) (mediaId : Nat) :
    postCalls (get_existing_tv_requests env mediaId).2 = [] := by
  simp only [get_existing_tv_requests]
  split
  · rfl
  · split
    · split
      · rfl
      · split
        · show postCalls (HttpCall.getRequests :: (lookupMediaStage env mediaId).2) = []
          simp only [postCalls, List.filterMap_cons]
          exact stage_trace_no_posts env mediaId
        · rfl
    · show postCalls (HttpCall.getRequests :: (lookupMediaStage env mediaId).2) = []
      simp only [postCalls, List.filterMap_cons]
      exact stage_trace_no_posts env mediaId

theorem getRequests_mem_lookup_trace (env : Env) (mediaId : Nat) :
    HttpCall.getRequests ∈ (get_existing_tv_requests env mediaId).2 := by
  simp only [get_existing_tv_requests]
  split
  · simp
  · split
    · split
      · simp
      · split <;> simp
    · simp

theorem mem_missing (existing : List Nat) (M s : Nat) :
    s ∈ (List.range' 1 M).filter (fun s => decide (s ∉ existing))
      ↔ (1 ≤ s ∧ s ≤ M ∧ s ∉ existing) := by
  rw [List.mem_filter, List.mem_range'_1, decide_eq_true_iff]
  constructor
  · rintro ⟨⟨ha, hb⟩, hc⟩
    exact ⟨ha, by omega, hc⟩
  · rintro ⟨ha, hb, hc⟩
    exact ⟨⟨ha, by omega⟩, hc⟩

theorem head?_postCalls_append (tr : List HttpCall) (b : PostBody)
    (rest : List HttpCall) (h : postCalls tr = []) :
    (postCalls (tr ++ HttpCall.post b :: rest)).head? = some b := by
  simp only [postCalls] at *
  rw [List.filterMap_append, h]
  rfl

theorem rtssCore_missing_empty (dryRun : Bool) (title : String) (M : Nat) (env : Env)
    (tvs : List SearchResult)
    (hempty : (List.range' 1 M).filter
        (fun s => decide (s ∉ (get_existing_tv_requests env (chooseTvItem title tvs).id).1))
      = []) :
    rtssCore dryRun title M env tvs =
      ({ status := "existing_request",
         message := "All seasons 1-" ++ toString M ++ " already available or requested",
         tmdb_id := some (chooseTvItem title tvs).id },
       HttpCall.getSearch title ::
         (get_existing_tv_requests env (chooseTvItem title tvs).id).2) := by
  simp only [rtssCore]
  rw [if_pos (by rw [hempty]; rfl)]

theorem rtssCore_posts_head (title : String) (M : Nat) (env : Env)
    (tvs : List SearchResult)
    (hne : (List.range' 1 M).filter
        (fun s => decide (s ∉ (get_existing_tv_requests env (chooseTvItem title tvs).id).1))
      ≠ []) :
    (postCalls (rtssCore false title M env tvs).2).head? =
      some { mediaId := (chooseTvItem title tvs).id, mediaType := "tv",
             seasons := some ((List.range' 1 M).filter
               (fun s => decide (s ∉
                 (get_existing_tv_requests env (chooseTvItem title tvs).id).1))),
             is4k := false } := by
  have hpc : postCalls (HttpCall.getSearch title ::
      (get_existing_tv_requests env (chooseTvItem title tvs).id).2) = [] := by
    simp only [postCalls, List.filterMap_cons]
    exact lookup_trace_no_posts env _
  simp only [rtssCore]
  rw [if_neg (fun hh => hne (List.isEmpty_iff.mp hh))]
  rw [if_neg (by simp)]
  split
  · exact head?_postCalls_append _ _ _ hpc
  · split
    · exact head?_postCalls_append _ _ _ hpc
    · split
      · exact head?_postCalls_append _ _ _ hpc
      · split
        · exact head?_postCalls_append _ _ _ hpc
        · rw [List.append_assoc, List.singleton_append]
          exact head?_postCalls_append _ _ _ hpc

/-- C2: with a resolved tv show of max season M and existing-season set E
from the lookup, the season-ranged entry point computes the needed range
1..M, submits exactly its complement of E as the first POST of its
create-request call, and when E covers all of 1..M returns
existing_request with no POST at all. -/
theorem claim_C2_season_delta (dryRun : Bool) (title : String) (M : Nat) (env : Env)
    (sd : SearchData)
    (h1 : env.search = Except.ok ⟨200, Except.ok sd⟩)
    (h2 : sd.results.isEmpty = false)
    (h3 : (sd.results.filter (fun r => r.mediaType == some "tv")).isEmpty = false) :
    (∀ s, s ∈ (List.range' 1 M).filter
        (fun s => decide (s ∉ (get_existing_tv_requests env
          (chooseTvItem title (sd.results.filter
            (fun r => r.mediaType == some "tv"))).id).1))
      ↔ (1 ≤ s ∧ s ≤ M ∧ s ∉ (get_existing_tv_requests env
          (chooseTvItem title (sd.results.filter
            (fun r => r.mediaType == some "tv"))).id).1))
    ∧ ((List.range' 1 M).filter
        (fun s => decide (s ∉ (get_existing_tv_requests env
          (chooseTvItem title (sd.results.filter
            (fun r => r.mediaType == some "tv"))).id).1)) = [] →
        (request_tv_show_seasons dryRun title M env).1.status = "existing_request"
        ∧ postCalls (request_tv_show_seasons dryRun title M env).2 = [])
    ∧ ((List.range' 1 M).filter
        (fun s => decide (s ∉ (get_existing_tv_requests env
          (chooseTvItem title (sd.results.filter
            (fun r => r.mediaType == some "tv"))).id).1)) ≠ [] →
        dryRun = false →
        (postCalls (request_tv_show_seasons dryRun title M env).2).head? =
          some { mediaId := (chooseTvItem title (sd.results.filter
                   (fun r => r.mediaType == some "tv"))).id,
                 mediaType := "tv",
                 seasons := some ((List.range' 1 M).filter
                   (fun s => decide (s ∉ (get_existing_tv_requests env
                     (chooseTvItem title (sd.results.filter
                       (fun r => r.mediaType == some "tv"))).id).1))),
                 is4k := false }) := by
  have hres := rtss_resolved dryRun title M env sd h1 h2 h3
  refine ⟨fun s => mem_missing _ M s, ?_, ?_⟩
  · intro hempty
    rw [hres, rtssCore_missing_empty dryRun title M env _ hempty]
    constructor
    · rfl
    · simp only [postCalls, List.filterMap_cons]
      exact lookup_trace_no_posts env _
  · intro hne hdr
    subst hdr
    rw [hres]
    exact rtssCore_posts_head title M env _ hne

theorem claim_C2_season_delta_witness :
    ((List.range' 1 3).filter
        (fun s => decide (s ∉ (get_existing_tv_requests envBatch201
          (chooseTvItem "A" (({ results := [tvResultA] } : SearchData).results.filter
            (fun r => r.mediaType == some "tv"))).id).1)) = [2, 3])
    ∧ (postCalls (request_tv_show_seasons false "A" 3 envBatch201).2).head? =
        some { mediaId := 5, mediaType := "tv", seasons := some [2, 3], is4k := false } := by
  refine ⟨by decide, ?_⟩
  have h := (claim_C2_season_delta false "A" 3 envBatch201 { results := [tvResultA] }
    rfl (by decide) (by decide)).2.2 (by decide) rfl
  rw [show (get_existing_tv_requests envBatch201
      (chooseTvItem "A" (({ results := [tvResultA] } : SearchData).results.filter
        (fun r => r.mediaType == some "tv"))).id) =
      (get_existing_tv_requests envBatch201 5) from by decide] at h
  exact h.trans (by decide)

theorem rtssCore_dry (title : String) (M : Nat) (env : Env) (tvs : List SearchResult)
    (hne : (List.range' 1 M).filter
        (fun s => decide (s ∉ (get_existing_tv_requests env (chooseTvItem title tvs).id).1))
      ≠ []) :
    rtssCore true title M env tvs =
      ({ status := "dry_run",
         message := "Dry run - would request seasons " ++
           pyListRepr ((List.range' 1 M).filter
             (fun s => decide (s ∉
               (get_existing_tv_requests env (chooseTvItem title tvs).id).1))),
         tmdb_id := some (chooseTvItem title tvs).id },
       HttpCall.getSearch title ::
         (get_existing_tv_requests env (chooseTvItem title tvs).id).2) := by
  simp only [rtssCore]
  rw [if_neg (fun hh => hne (List.isEmpty_iff.mp hh))]
  simp

theorem rioCore_dry (title mediaType : String) (env : Env)
    (results : List SearchResult) :
    rioCore true title mediaType env results =
      ({ status := "dry_run", message := "Dry run - would request",
         tmdb_id := some (chooseMedia title mediaType results).id },
       [HttpCall.getSearch title]) := by
  simp only [rioCore]
  simp

/-- C1 amended: with dry-run enabled and resolution succeeding, neither
entry point issues a POST; the season-ranged entry point still performs
the search and the existing-season lookup and returns dry_run unless
every needed season already exists, in which case it returns
existing_request; the unscoped entry point performs no existing-season
lookup at all (its trace is the search alone) and returns dry_run. -/
theorem claim_C1_dry_run (title : String) (M : Nat) (mediaType : String) (env : Env)
    (sd : SearchData)
    (h1 : env.search = Except.ok ⟨200, Except.ok sd⟩)
    (h2 : sd.results.isEmpty = false)
    (h3 : (sd.results.filter (fun r => r.mediaType == some "tv")).isEmpty = false) :
    postCalls (request_tv_show_seasons true title M env).2 = []
    ∧ HttpCall.getSearch title ∈ (request_tv_show_seasons true title M env).2
    ∧ HttpCall.getRequests ∈ (request_tv_show_seasons true title M env).2
    ∧ ((List.range' 1 M).filter
        (fun s => decide (s ∉ (get_existing_tv_requests env
          (chooseTvItem title (sd.results.filter
            (fun r => r.mediaType == some "tv"))).id).1)) = [] →
        (request_tv_show_seasons true title M env).1.status = "existing_request")
    ∧ ((List.range' 1 M).filter
        (fun s => decide (s ∉ (get_existing_tv_requests env
          (chooseTvItem title (sd.results.filter
            (fun r => r.mediaType == some "tv"))).id).1)) ≠ [] →
        (request_tv_show_seasons true title M env).1.status = "dry_run")
    ∧ (request_in_overseerr true title mediaType env).1.status = "dry_run"
    ∧ (request_in_overseerr true title mediaType env).2 = [HttpCall.getSearch title] := by
  have hres := rtss_resolved true title M env sd h1 h2 h3
  have hrio := rio_resolved true title mediaType env sd h1 h2
  have htr : (request_tv_show_seasons true title M env).2 =
      HttpCall.getSearch title ::
        (get_existing_tv_requests env
          (chooseTvItem title (sd.results.filter
            (fun r => r.mediaType == some "tv"))).id).2 := by
    by_cases hmiss : (List.range' 1 M).filter
        (fun s => decide (s ∉ (get_existing_tv_requests env
          (chooseTvItem title (sd.results.filter
            (fun r => r.mediaType == some "tv"))).id).1)) = []
    · rw [hres, rtssCore_missing_empty true title M env _ hmiss]
    · rw [hres, rtssCore_dry title M env _ hmiss]
  refine ⟨?_, ?_, ?_, ?_, ?_, ?_, ?_⟩
  · rw [htr]
    simp only [postCalls, List.filterMap_cons]
    exact lookup_trace_no_posts env _
  · rw [htr]
    exact List.mem_cons_self _ _
  · rw [htr]
    exact List.mem_cons_of_mem _ (getRequests_mem_lookup_trace env _)
  · intro hmiss
    rw [hres, rtssCore_missing_empty true title M env _ hmiss]
  · intro hmiss
    rw [hres, rtssCore_dry title M env _ hmiss]
  · rw [hrio, rioCore_dry]
  · rw [hrio, rioCore_dry]

theorem claim_C1_dry_run_counterexample :
    (request_tv_show_seasons true "A" 1 envSeason1).1.status = "existing_request"
    ∧ (request_tv_show_seasons true "A" 1 envSeason1).1.status ≠ "dry_run"
    ∧ postCalls (request_tv_show_seasons true "A" 1 envSeason1).2 = [] := by
  exact ⟨by decide, by decide, by decide⟩

theorem claim_C1_dry_run_witness :
    postCalls (request_tv_show_seasons true "A" 2 envNoExisting).2 = []
    ∧ (request_tv_show_seasons true "A" 2 envNoExisting).1.status = "dry_run"
    ∧ (request_in_overseerr true "A" "tv" envNoExisting).1.status = "dry_run"
    ∧ (request_in_overseerr true "A" "tv" envNoExisting).2 = [HttpCall.getSearch "A"] := by
  have c := claim_C1_dry_run "A" 2 "tv" envNoExisting { results := [tvResultA] }
    rfl (by decide) (by decide)
  exact ⟨c.1, c.2.2.2.2.1 (by decide), c.2.2.2.2.2.1, c.2.2.2.2.2.2⟩

theorem postCalls_map_post (f : Nat → PostBody) (l : List Nat) :
    postCalls (l.map (fun s => HttpCall.post (f s))) = l.map f := by
  induction l with
  | nil => rfl
  | cons x xs ih => simp [postCalls, List.filterMap_cons] at ih ⊢; exact ih

theorem seasonLoop_clean (env : Env) (mediaId : Nat) :
    ∀ (seasons : List Nat) (k : Nat), loopClean env k seasons →
      seasonLoop env mediaId k seasons =
        (Except.ok (succSpec env k seasons),
         seasons.map (fun s => HttpCall.post
           { mediaId := mediaId, mediaType := "tv", seasons := some [s],
             is4k := false })) := by
  intro seasons
  induction seasons with
  | nil =>
    intro k h
    rfl
  | cons s rest ih =>
    intro k h
    obtain ⟨r, hr, hmsg⟩ := h 0 (by simp)
    rw [Nat.add_zero] at hr
    have hrest : loopClean env (k + 1) rest := by
      intro i hi
      have hh := h (i + 1) (by simp; omega)
      rwa [show k + (i + 1) = k + 1 + i from by omega] at hh
    simp only [seasonLoop, succSpec, hr]
    rw [ih (k + 1) hrest]
    by_cases h201 : r.status_code = 201
    · simp [h201, Except.map]
    · by_cases h409 : r.status_code = 409
      · simp [h201, h409]
      · obtain ⟨m, hm⟩ := hmsg h201 h409
        simp [h201, h409, hm]

theorem rtssCore_fallback (title : String) (M : Nat) (env : Env)
    (tvs : List SearchResult) (r0 : PostResponse) (m0 : String)
    (hne : (List.range' 1 M).filter
        (fun s => decide (s ∉ (get_existing_tv_requests env (chooseTvItem title tvs).id).1))
      ≠ [])
    (hp0 : env.post 0 = Except.ok r0)
    (h201 : r0.status_code ≠ 201) (h409 : r0.status_code ≠ 409)
    (hm0 : getMsg r0 = Except.ok m0)
    (hbug : pyIn bugMsg m0 = false)
    (hns : pyIn "No seasons available to request" m0 = true)
    (hclean : loopClean env 1 ((List.range' 1 M).filter
      (fun s => decide (s ∉ (get_existing_tv_requests env (chooseTvItem title tvs).id).1)))) :
    rtssCore false title M env tvs =
      ((if (succSpec env 1 ((List.range' 1 M).filter
            (fun s => decide (s ∉
              (get_existing_tv_requests env (chooseTvItem title tvs).id).1)))).isEmpty then
          { status := "existing_request",
            message := "All seasons already available or requested",
            tmdb_id := some (chooseTvItem title tvs).id }
        else
          { status := "new_request",
            message := successMsg (get_existing_tv_requests env (chooseTvItem title tvs).id).1
              (succSpec env 1 ((List.range' 1 M).filter
                (fun s => decide (s ∉
                  (get_existing_tv_requests env (chooseTvItem title tvs).id).1)))),
            tmdb_id := some (chooseTvItem title tvs).id }),
       (HttpCall.getSearch title ::
          (get_existing_tv_requests env (chooseTvItem title tvs).id).2) ++
         [HttpCall.post
            { mediaId := (chooseTvItem title tvs).id, mediaType := "tv",
              seasons := some ((List.range' 1 M).filter
                (fun s => decide (s ∉
                  (get_existing_tv_requests env (chooseTvItem title tvs).id).1))),
              is4k := false }] ++
         ((List.range' 1 M).filter
            (fun s => decide (s ∉
              (get_existing_tv_requests env (chooseTvItem title tvs).id).1))).map
           (fun s => HttpCall.post
             { mediaId := (chooseTvItem title tvs).id,
               mediaType := "tv", seasons := some [s], is4k := false })) := by
  simp only [rtssCore, hp0]
  rw [if_neg (fun hh => hne (List.isEmpty_iff.mp hh))]
  rw [if_neg h201, if_neg h409]
  simp only [hm0, rtssErrorBranch, hbug, hns]
  rw [seasonLoop_clean env (chooseTvItem title tvs).id _ 1 hclean]
  simp [List.append_assoc]
  exact ⟨by split <;> rfl, by split <;> rfl⟩

/-- C6: when the batched create-request fails with the no-seasons-available
message, the entry point submits each missing season individually in
ascending order; if no individual POST answers 201 it returns
existing_request, and otherwise new_request with the message naming
exactly the seasons that succeeded. -/
theorem claim_C6_individual_fallback (title : String) (M : Nat) (env : Env)
    (sd : SearchData) (r0 : PostResponse) (m0 : String)
    (h1 : env.search = Except.ok ⟨200, Except.ok sd⟩)
    (h2 : sd.results.isEmpty = false)
    (h3 : (sd.results.filter (fun r => r.mediaType == some "tv")).isEmpty = false)
    (hne : (List.range' 1 M).filter
        (fun s => decide (s ∉ (get_existing_tv_requests env
          (chooseTvItem title (sd.results.filter
            (fun r => r.mediaType == some "tv"))).id).1)) ≠ [])
    (hp0 : env.post 0 = Except.ok r0)
    (h201 : r0.status_code ≠ 201) (h409 : r0.status_code ≠ 409)
    (hm0 : getMsg r0 = Except.ok m0)
    (hbug : pyIn bugMsg m0 = false)
    (hns : pyIn "No seasons available to request" m0 = true)
    (hclean : loopClean env 1 ((List.range' 1 M).filter
      (fun s => decide (s ∉ (get_existing_tv_requests env
        (chooseTvItem title (sd.results.filter
          (fun r => r.mediaType == some "tv"))).id).1)))) :
    postCalls (request_tv_show_seasons false title M env).2 =
      { mediaId := (chooseTvItem title (sd.results.filter
          (fun r => r.mediaType == some "tv"))).id, mediaType := "tv",
        seasons := some ((List.range' 1 M).filter
          (fun s => decide (s ∉ (get_existing_tv_requests env
            (chooseTvItem title (sd.results.filter
              (fun r => r.mediaType == some "tv"))).id).1))),
        is4k := false } ::
      ((List.range' 1 M).filter
        (fun s => decide (s ∉ (get_existing_tv_requests env
          (chooseTvItem title (sd.results.filter
            (fun r => r.mediaType == some "tv"))).id).1))).map
        (fun s =>
          { mediaId := (chooseTvItem title (sd.results.filter
                (fun r => r.mediaType == some "tv"))).id,
            mediaType := "tv", seasons := some [s], is4k := false })
    ∧ List.Pairwise (· < ·) ((List.range' 1 M).filter
        (fun s => decide (s ∉ (get_existing_tv_requests env
          (chooseTvItem title (sd.results.filter
            (fun r => r.mediaType == some "tv"))).id).1)))
    ∧ (succSpec env 1 ((List.range' 1 M).filter
        (fun s => decide (s ∉ (get_existing_tv_requests env
          (chooseTvItem title (sd.results.filter
            (fun r => r.mediaType == some "tv"))).id).1))) = [] →
        (request_tv_show_seasons false title M env).1.status = "existing_request")
    ∧ (succSpec env 1 ((List.range' 1 M).filter
        (fun s => decide (s ∉ (get_existing_tv_requests env
          (chooseTvItem title (sd.results.filter
            (fun r => r.mediaType == some "tv"))).id).1))) ≠ [] →
        (request_tv_show_seasons false title M env).1.status = "new_request"
        ∧ (request_tv_show_seasons false title M env).1.message =
            successMsg (get_existing_tv_requests env
              (chooseTvItem title (sd.results.filter
                (fun r => r.mediaType == some "tv"))).id).1
              (succSpec env 1 ((List.range' 1 M).filter
                (fun s => decide (s ∉ (get_existing_tv_requests env
                  (chooseTvItem title (sd.results.filter
                    (fun r => r.mediaType == some "tv"))).id).1))))) := by
  have hres := rtss_resolved false title M env sd h1 h2 h3
  have heq := rtssCore_fallback title M env
    (sd.results.filter (fun r => r.mediaType == some "tv")) r0 m0
    hne hp0 h201 h409 hm0 hbug hns hclean
  rw [hres, heq]
  have hpc : postCalls (HttpCall.getSearch title ::
      (get_existing_tv_requests env (chooseTvItem title (sd.results.filter
        (fun r => r.mediaType == some "tv"))).id).2) = [] := by
    simp only [postCalls, List.filterMap_cons]
    exact lookup_trace_no_posts env _
  refine ⟨?_, ?_, ?_, ?_⟩
  · have hm := postCalls_map_post (fun s =>
        ({ mediaId := (chooseTvItem title (sd.results.filter
              (fun r => r.mediaType == some "tv"))).id,
           mediaType := "tv", seasons := some [s], is4k := false } : PostBody))
      ((List.range' 1 M).filter
        (fun s => decide (s ∉ (get_existing_tv_requests env
          (chooseTvItem title (sd.results.filter
            (fun r => r.mediaType == some "tv"))).id).1)))
    have hl := lookup_trace_no_posts env (chooseTvItem title (sd.results.filter
      (fun r => r.mediaType == some "tv"))).id
    simp only [postCalls] at hm hpc hl ⊢
    simp only [List.filterMap_append, List.nil_append, List.filterMap_cons,
      List.filterMap_nil, List.cons_append]
    rw [hm, hl]
    rfl
  · have hp : (List.range' 1 M).Pairwise (· < ·) := List.pairwise_lt_range' ..
    exact hp.sublist (List.filter_sublist _)
  · intro hsucc
    rw [hsucc]
    rfl
  · intro hsucc
    rw [if_neg (fun hh => hsucc (List.isEmpty_iff.mp hh))]
    exact ⟨rfl, rfl⟩

theorem claim_C6_individual_fallback_witness :
    postCalls (request_tv_show_seasons false "A" 4 envFallback).2 =
      [{ mediaId := 5, mediaType := "tv", seasons := some [2, 3, 4], is4k := false },
       { mediaId := 5, mediaType := "tv", seasons := some [2], is4k := false },
       { mediaId := 5, mediaType := "tv", seasons := some [3], is4k := false },
       { mediaId := 5, mediaType := "tv", seasons := some [4], is4k := false }]
    ∧ (request_tv_show_seasons false "A" 4 envFallback).1.status = "new_request"
    ∧ (request_tv_show_seasons false "A" 4 envFallback).1.message =
        "Successfully requested missing seasons [2] (existing: [1])" := by
  have hcleanLit : loopClean envFallback 1 [2, 3, 4] := by
    intro i hi
    simp only [List.length_cons, List.length_nil] at hi
    interval_cases i
    · exact ⟨⟨201, Except.ok none⟩, rfl, fun hc _ => absurd rfl hc⟩
    · exact ⟨⟨409, Except.ok none⟩, rfl, fun _ hc => absurd rfl hc⟩
    · exact ⟨⟨500, Except.ok (some "boom")⟩, rfl, fun _ _ => ⟨"boom", rfl⟩⟩
  have hclean : loopClean envFallback 1 ((List.range' 1 4).filter
      (fun s => decide (s ∉ (get_existing_tv_requests envFallback
        (chooseTvItem "A" (({ results := [tvResultA] } : SearchData).results.filter
          (fun r => r.mediaType == some "tv"))).id).1))) := hcleanLit
  have c := claim_C6_individual_fallback "A" 4 envFallback { results := [tvResultA] }
    { status_code := 500, msg := Except.ok (some "No seasons available to request") }
    "No seasons available to request" rfl (by decide) (by decide) (by decide) rfl
    (by decide) (by decide) rfl (by decide) (by decide) hclean
  refine ⟨c.1.trans (by decide), ?_, ?_⟩
  · exact (c.2.2.2 (by decide)).1
  · exact (c.2.2.2 (by decide)).2.trans (by decide)

theorem rioCore_ladder_unfold (title : String) (env : Env)
    (results : List SearchResult) (r0 : PostResponse) (m0 : String)
    (hp0 : env.post 0 = Except.ok r0)
    (h201 : r0.status_code ≠ 201) (h409 : r0.status_code ≠ 409)
    (hm0 : getMsg r0 = Except.ok m0)
    (htrig : (pyIn "Failed to fetch TV show details" m0 || pyIn "404" m0
      || pyIn "Cannot read properties of undefined" m0) = true) :
    rioCore false title "tv" env results =
      (match env.post 1 with
       | Except.error e => (excOutcome e,
           [HttpCall.getSearch title,
            HttpCall.post (bareBody (chooseMedia title "tv" results).id "tv"),
            HttpCall.post (ladderBody (chooseMedia title "tv" results).id "tv" 1)])
       | Except.ok r1 =>
         if r1.status_code ≠ 201 ∧ r1.status_code ≠ 409 then
           match getMsg r1 with
           | Except.error e => (excOutcome e,
               [HttpCall.getSearch title,
                HttpCall.post (bareBody (chooseMedia title "tv" results).id "tv"),
                HttpCall.post (ladderBody (chooseMedia title "tv" results).id "tv" 1)])
           | Except.ok m1 =>
             if pyIn "No seasons available to request" m1 then
               match env.post 2 with
               | Except.error e => (excOutcome e,
                   [HttpCall.getSearch title,
                    HttpCall.post (bareBody (chooseMedia title "tv" results).id "tv"),
                    HttpCall.post (ladderBody (chooseMedia title "tv" results).id "tv" 1),
                    HttpCall.post (ladderBody (chooseMedia title "tv" results).id "tv" 2)])
               | Except.ok r2 =>
                 if r2.status_code ≠ 201 ∧ r2.status_code ≠ 409 then
                   match getMsg r2 with
                   | Except.error e => (excOutcome e,
                       [HttpCall.getSearch title,
                        HttpCall.post (bareBody (chooseMedia title "tv" results).id "tv"),
                        HttpCall.post (ladderBody (chooseMedia title "tv" results).id "tv" 1),
                        HttpCall.post (ladderBody (chooseMedia title "tv" results).id "tv" 2)])
                   | Except.ok m2 =>
                     if pyIn "No seasons available to request" m2 then
                       match env.post 3 with
                       | Except.error e => (excOutcome e,
                           [HttpCall.getSearch title,
                            HttpCall.post (bareBody (chooseMedia title "tv" results).id "tv"),
                            HttpCall.post (ladderBody (chooseMedia title "tv" results).id "tv" 1),
                            HttpCall.post (ladderBody (chooseMedia title "tv" results).id "tv" 2),
                            HttpCall.post (ladderBody (chooseMedia title "tv" results).id "tv" 3)])
                       | Except.ok r3 =>
                         ((rioFinish env 4 "tv" (chooseMedia title "tv" results).id r3).1,
                          [HttpCall.getSearch title,
                           HttpCall.post (bareBody (chooseMedia title "tv" results).id "tv"),
                           HttpCall.post (ladderBody (chooseMedia title "tv" results).id "tv" 1),
                           HttpCall.post (ladderBody (chooseMedia title "tv" results).id "tv" 2),
                           HttpCall.post (ladderBody (chooseMedia title "tv" results).id "tv" 3)]
                            ++ (rioFinish env 4 "tv" (chooseMedia title "tv" results).id r3).2)
                     else
                       ((rioFinish env 3 "tv" (chooseMedia title "tv" results).id r2).1,
                        [HttpCall.getSearch title,
                         HttpCall.post (bareBody (chooseMedia title "tv" results).id "tv"),
                         HttpCall.post (ladderBody (chooseMedia title "tv" results).id "tv" 1),
                         HttpCall.post (ladderBody (chooseMedia title "tv" results).id "tv" 2)]
                          ++ (rioFinish env 3 "tv" (chooseMedia title "tv" results).id r2).2)
                 else
                   ((rioFinish env 3 "tv" (chooseMedia title "tv" results).id r2).1,
                    [HttpCall.getSearch title,
                     HttpCall.post (bareBody (chooseMedia title "tv" results).id "tv"),
                     HttpCall.post (ladderBody (chooseMedia title "tv" results).id "tv" 1),
                     HttpCall.post (ladderBody (chooseMedia title "tv" results).id "tv" 2)]
                      ++ (rioFinish env 3 "tv" (chooseMedia title "tv" results).id r2).2)
             else
               ((rioFinish env 2 "tv" (chooseMedia title "tv" results).id r1).1,
                [HttpCall.getSearch title,
                 HttpCall.post (bareBody (chooseMedia title "tv" results).id "tv"),
                 HttpCall.post (ladderBody (chooseMedia title "tv" results).id "tv" 1)]
                  ++ (rioFinish env 2 "tv" (chooseMedia title "tv" results).id r1).2)
         else
           ((rioFinish env 2 "tv" (chooseMedia title "tv" results).id r1).1,
            [HttpCall.getSearch title,
             HttpCall.post (bareBody (chooseMedia title "tv" results).id "tv"),
             HttpCall.post (ladderBody (chooseMedia title "tv" results).id "tv" 1)]
              ++ (rioFinish env 2 "tv" (chooseMedia title "tv" results).id r1).2)) := by
  simp only [rioCore, hp0]
  rw [if_neg (show ¬((false : Bool) = true) by simp)]
  rw [if_pos (show True ∧ r0.status_code ≠ 201 ∧ r0.status_code ≠ 409
    from ⟨trivial, h201, h409⟩)]
  simp only [hm0]
  rw [if_pos htrig]
  rfl

theorem rioFinish_trace_nil (env : Env) (n : Nat) (mt : String) (mid : Nat)
    (r : PostResponse) (h : r.status_code = 201 ∨ r.status_code = 409) :
    (rioFinish env n mt mid r).2 = [] := by
  unfold rioFinish
  rcases h with h | h
  · rw [if_pos h]
  · by_cases h2 : r.status_code = 201
    · rw [if_pos h2]
    · rw [if_neg h2, if_pos h]

/-- C7: on the unscoped tv path, after the bare POST fails with a
season-related error the entry point retries with season lists 1, 2 and 3
in that fixed order, each further retry fired by the no-seasons-available
message, and stops the ladder at the first 201 or 409 response. -/
theorem claim_C7_retry_ladder (title : String) (env : Env) (sd : SearchData)
    (r0 : PostResponse) (m0 : String)
    (h1 : env.search = Except.ok ⟨200, Except.ok sd⟩)
    (h2 : sd.results.isEmpty = false)
    (hp0 : env.post 0 = Except.ok r0)
    (h201 : r0.status_code ≠ 201) (h409 : r0.status_code ≠ 409)
    (hm0 : getMsg r0 = Except.ok m0)
    (htrig : (pyIn "Failed to fetch TV show details" m0 || pyIn "404" m0
      || pyIn "Cannot read properties of undefined" m0) = true) :
    (postCalls (request_in_overseerr false title "tv" env).2).take 2 =
      [bareBody (chooseMedia title "tv" sd.results).id "tv",
       ladderBody (chooseMedia title "tv" sd.results).id "tv" 1]
    ∧ (∀ r1, env.post 1 = Except.ok r1 →
        (r1.status_code = 201 ∨ r1.status_code = 409) →
        postCalls (request_in_overseerr false title "tv" env).2 =
          [bareBody (chooseMedia title "tv" sd.results).id "tv",
           ladderBody (chooseMedia title "tv" sd.results).id "tv" 1])
    ∧ (∀ r1 m1, env.post 1 = Except.ok r1 → r1.status_code ≠ 201 →
        r1.status_code ≠ 409 → getMsg r1 = Except.ok m1 →
        pyIn "No seasons available to request" m1 = true →
        (postCalls (request_in_overseerr false title "tv" env).2).take 3 =
          [bareBody (chooseMedia title "tv" sd.results).id "tv",
           ladderBody (chooseMedia title "tv" sd.results).id "tv" 1,
           ladderBody (chooseMedia title "tv" sd.results).id "tv" 2]
        ∧ (∀ r2, env.post 2 = Except.ok r2 →
            (r2.status_code = 201 ∨ r2.status_code = 409) →
            postCalls (request_in_overseerr false title "tv" env).2 =
              [bareBody (chooseMedia title "tv" sd.results).id "tv",
               ladderBody (chooseMedia title "tv" sd.results).id "tv" 1,
               ladderBody (chooseMedia title "tv" sd.results).id "tv" 2])
        ∧ (∀ r2 m2, env.post 2 = Except.ok r2 → r2.status_code ≠ 201 →
            r2.status_code ≠ 409 → getMsg r2 = Except.ok m2 →
            pyIn "No seasons available to request" m2 = true →
            (postCalls (request_in_overseerr false title "tv" env).2).take 4 =
              [bareBody (chooseMedia title "tv" sd.results).id "tv",
               ladderBody (chooseMedia title "tv" sd.results).id "tv" 1,
               ladderBody (chooseMedia title "tv" sd.results).id "tv" 2,
               ladderBody (chooseMedia title "tv" sd.results).id "tv" 3]
            ∧ (∀ r3, env.post 3 = Except.ok r3 →
                (r3.status_code = 201 ∨ r3.status_code = 409) →
                postCalls (request_in_overseerr false title "tv" env).2 =
                  [bareBody (chooseMedia title "tv" sd.results).id "tv",
                   ladderBody (chooseMedia title "tv" sd.results).id "tv" 1,
                   ladderBody (chooseMedia title "tv" sd.results).id "tv" 2,
                   ladderBody (chooseMedia title "tv" sd.results).id "tv" 3]))) := by
  have hred := (rio_resolved false title "tv" env sd h1 h2).trans
    (rioCore_ladder_unfold title env sd.results r0 m0 hp0 h201 h409 hm0 htrig)
  rw [hred]
  refine ⟨?_, ?_, ?_⟩
  · rcases hq1 : env.post 1 with e | r1
    · simp [postCalls, bareBody]
    · simp only []
      by_cases hc : r1.status_code ≠ 201 ∧ r1.status_code ≠ 409
      · rw [if_pos hc]
        rcases hgm : getMsg r1 with e | m1
        · simp [postCalls, bareBody]
        · simp only []
          by_cases hpy : pyIn "No seasons available to request" m1 = true
          · rw [if_pos hpy]
            rcases hq2 : env.post 2 with e | r2
            · simp [postCalls, bareBody]
            · simp only []
              by_cases hc2 : r2.status_code ≠ 201 ∧ r2.status_code ≠ 409
              · rw [if_pos hc2]
                rcases hgm2 : getMsg r2 with e | m2
                · simp [postCalls, bareBody]
                · simp only []
                  by_cases hpy2 : pyIn "No seasons available to request" m2 = true
                  · rw [if_pos hpy2]
                    rcases hq3 : env.post 3 with e | r3
                    · simp [postCalls, bareBody]
                    · simp [postCalls, bareBody]
                  · rw [if_neg hpy2]
                    simp [postCalls, bareBody]
              · rw [if_neg hc2]
                simp [postCalls, bareBody]
          · rw [if_neg hpy]
            simp [postCalls, bareBody]
      · rw [if_neg hc]
        simp [postCalls, bareBody]
  · intro r1 hq1 hor
    simp only [hq1]
    rw [if_neg (by rcases hor with h | h <;> simp [h])]
    rw [rioFinish_trace_nil env 2 "tv" _ r1 hor]
    simp [postCalls, bareBody]
  · intro r1 m1 hq1 hn1 hn9 hgm1 hpy1
    simp only [hq1]
    rw [if_pos ⟨hn1, hn9⟩]
    simp only [hgm1]
    rw [if_pos hpy1]
    refine ⟨?_, ?_, ?_⟩
    · rcases hq2 : env.post 2 with e | r2
      · simp [postCalls, bareBody]
      · simp only []
        by_cases hc2 : r2.status_code ≠ 201 ∧ r2.status_code ≠ 409
        · rw [if_pos hc2]
          rcases hgm2 : getMsg r2 with e | m2
          · simp [postCalls, bareBody]
          · simp only []
            by_cases hpy2 : pyIn "No seasons available to request" m2 = true
            · rw [if_pos hpy2]
              rcases hq3 : env.post 3 with e | r3
              · simp [postCalls, bareBody]
              · simp [postCalls, bareBody]
            · rw [if_neg hpy2]
              simp [postCalls, bareBody]
        · rw [if_neg hc2]
          simp [postCalls, bareBody]
    · intro r2 hq2 hor
      simp only [hq2]
      rw [if_neg (by rcases hor with h | h <;> simp [h])]
      rw [rioFinish_trace_nil env 3 "tv" _ r2 hor]
      simp [postCalls, bareBody]
    · intro r2 m2 hq2 hn2 hn92 hgm2 hpy2
      simp only [hq2]
      rw [if_pos ⟨hn2, hn92⟩]
      simp only [hgm2]
      rw [if_pos hpy2]
      refine ⟨?_, ?_⟩
      · rcases hq3 : env.post 3 with e | r3
        · simp [postCalls, bareBody]
        · simp [postCalls, bareBody]
      · intro r3 hq3 hor
        simp only [hq3]
        rw [rioFinish_trace_nil env 4 "tv" _ r3 hor]
        simp [postCalls, bareBody]

theorem claim_C7_retry_ladder_witness :
    (envLadder.post 0 = mkPost 500 (some "Failed to fetch TV show details")
      ∧ envLadder.post 3 = mkPost 201 none)
    ∧ postCalls (request_in_overseerr false "B" "tv" envLadder).2 =
        [bareBody 7 "tv", ladderBody 7 "tv" 1, ladderBody 7 "tv" 2,
         ladderBody 7 "tv" 3] := by
  refine ⟨⟨rfl, rfl⟩, ?_⟩
  have h := claim_C7_retry_ladder "B" envLadder { results := [tvResultB] }
    { status_code := 500,
      msg := Except.ok (some "Failed to fetch TV show details") }
    "Failed to fetch TV show details"
    rfl rfl rfl (by decide) (by decide) rfl (by decide)
  exact ((h.2.2
    { status_code := 500,
      msg := Except.ok (some "No seasons available to request") }
    "No seasons available to request"
    rfl (by decide) (by decide) rfl (by decide)).2.2
    { status_code := 500,
      msg := Except.ok (some "No seasons available to request") }
    "No seasons available to request"
    rfl (by decide) (by decide) rfl (by decide)).2
    { status_code := 201, msg := Except.ok none } rfl (Or.inl rfl)

theorem rtssErrorBranch_status (env : Env) (mid : Nat) (ex toReq : List Nat)
    (m : String) : (rtssErrorBranch env mid ex toReq m).1.status ∈ statusStrings := by
  simp only [rtssErrorBranch]
  repeat' split
  all_goals simp [excOutcome, statusStrings]

theorem rtssCore_status (dryRun : Bool) (title : String) (maxSeason : Nat)
    (env : Env) (tvResults : List SearchResult) :
    (rtssCore dryRun title maxSeason env tvResults).1.status ∈ statusStrings := by
  simp only [rtssCore]
  repeat' split
  any_goals exact rtssErrorBranch_status _ _ _ _ _
  all_goals simp [excOutcome, statusStrings]

theorem rioFinish_status (env : Env) (nextPost : Nat) (mediaType : String)
    (mid : Nat) (r : PostResponse) :
    (rioFinish env nextPost mediaType mid r).1.status ∈ statusStrings := by
  simp only [rioFinish]
  repeat' split
  all_goals simp [excOutcome, statusStrings]

theorem rioCore_status (dryRun : Bool) (title mediaType : String) (env : Env)
    (results : List SearchResult) :
    (rioCore dryRun title mediaType env results).1.status ∈ statusStrings := by
  simp only [rioCore]
  repeat' split
  any_goals exact rioFinish_status _ _ _ _ _
  all_goals simp [excOutcome, statusStrings]

/-- C10: whatever the transport does - parse failures and raised
exceptions included - both entry points return an outcome whose status is
one of the five statuses of the data model, and a raised search exception
is converted into the error outcome rather than propagated. -/
theorem claim_C10_total_outcomes (dryRun : Bool) (title mediaType : String)
    (maxSeason : Nat) (env : Env) :
    (request_tv_show_seasons dryRun title maxSeason env).1.status ∈ statusStrings
    ∧ (request_in_overseerr dryRun title mediaType env).1.status ∈ statusStrings
    ∧ (∀ e, env.search = Except.error e →
        (request_tv_show_seasons dryRun title maxSeason env).1 = excOutcome e
        ∧ (request_in_overseerr dryRun title mediaType env).1 = excOutcome e) := by
  refine ⟨?_, ?_, ?_⟩
  · simp only [request_tv_show_seasons]
    repeat' split
    any_goals exact rtssCore_status _ _ _ _ _
    all_goals simp [excOutcome, statusStrings]
  · simp only [request_in_overseerr]
    repeat' split
    any_goals exact rioCore_status _ _ _ _ _
    all_goals simp [excOutcome, statusStrings]
  · intro e he
    constructor
    · simp only [request_tv_show_seasons, he]
    · simp only [request_in_overseerr, he]

theorem claim_C10_total_outcomes_witness :
    (envErr.search = Except.error "boom"
      ∧ (request_tv_show_seasons false "T" 3 envErr).1 = excOutcome "boom")
    ∧ (request_in_overseerr false "T" "tv" envErr).1 = excOutcome "boom"
    ∧ (request_in_overseerr false "T" "tv" envErr).1.status ∈ statusStrings :=
  ⟨⟨rfl, ((claim_C10_total_outcomes false "T" "tv" 3 envErr).2.2 "boom" rfl).1⟩,
   ((claim_C10_total_outcomes false "T" "tv" 3 envErr).2.2 "boom" rfl).2,
   (claim_C10_total_outcomes false "T" "tv" 3 envErr).2.1⟩

theorem runMovies_spec (dryRun : Bool) (envs : Nat → Env) (ts : List String) :
    ∀ (k : Nat) (s : Summary),
    runMovies dryRun envs k ts s =
      { s with
        new_downloads := s.new_downloads ++ (movieTriple dryRun envs k ts).1,
        existing_downloads :=
          s.existing_downloads ++ (movieTriple dryRun envs k ts).2.1,
        errors := s.errors ++ (movieTriple dryRun envs k ts).2.2 } := by
  induction ts with
  | nil => intro k s; simp [runMovies, movieTriple]
  | cons t ts ih =>
    intro k s
    simp only [runMovies, movieTriple]
    by_cases h1 : (processMovieOutcome dryRun (envs k) t).status = "new_request"
    · rw [if_pos h1, if_pos h1, ih (k + 1)]
      simp [List.append_assoc]
    · rw [if_neg h1, if_neg h1]
      by_cases h2 : (processMovieOutcome dryRun (envs k) t).status = "existing_request"
      · rw [if_pos h2, if_pos h2, ih (k + 1)]
        simp [List.append_assoc]
      · rw [if_neg h2, if_neg h2, ih (k + 1)]
        simp [List.append_assoc]

theorem runShows_spec (dryRun : Bool) (envs : Nat → Env) (ts : List TvShow) :
    ∀ (k : Nat) (s : Summary),
    runShows dryRun envs k ts s =
      { s with
        new_downloads := s.new_downloads ++ (showTriple dryRun envs k ts).1,
        existing_downloads :=
          s.existing_downloads ++ (showTriple dryRun envs k ts).2.1,
        errors := s.errors ++ (showTriple dryRun envs k ts).2.2 } := by
  induction ts with
  | nil => intro k s; simp [runShows, showTriple]
  | cons tv ts ih =>
    intro k s
    simp only [runShows, showTriple]
    by_cases h1 : (processShowOutcome dryRun (envs k) tv).status = "new_request"
    · rw [if_pos h1, if_pos h1, ih (k + 1)]
      simp [List.append_assoc]
    · rw [if_neg h1, if_neg h1]
      by_cases h2 : (processShowOutcome dryRun (envs k) tv).status = "existing_request"
      · rw [if_pos h2, if_pos h2, ih (k + 1)]
        simp [List.append_assoc]
      · rw [if_neg h2, if_neg h2, ih (k + 1)]
        simp [List.append_assoc]

theorem movieTriple_len (dryRun : Bool) (envs : Nat → Env) (ts : List String) :
    ∀ (k : Nat),
    (movieTriple dryRun envs k ts).1.length
      + (movieTriple dryRun envs k ts).2.1.length
      + (movieTriple dryRun envs k ts).2.2.length = ts.length := by
  induction ts with
  | nil => intro k; simp [movieTriple]
  | cons t ts ih =>
    intro k
    have h := ih (k + 1)
    simp only [movieTriple]
    by_cases h1 : (processMovieOutcome dryRun (envs k) t).status = "new_request"
    · rw [if_pos h1]; simp only [List.length_cons]; omega
    · rw [if_neg h1]
      by_cases h2 : (processMovieOutcome dryRun (envs k) t).status = "existing_request"
      · rw [if_pos h2]; simp only [List.length_cons]; omega
      · rw [if_neg h2]; simp only [List.length_cons]; omega

theorem showTriple_len (dryRun : Bool) (envs : Nat → Env) (ts : List TvShow) :
    ∀ (k : Nat),
    (showTriple dryRun envs k ts).1.length
      + (showTriple dryRun envs k ts).2.1.length
      + (showTriple dryRun envs k ts).2.2.length = ts.length := by
  induction ts with
  | nil => intro k; simp [showTriple]
  | cons tv ts ih =>
    intro k
    have h := ih (k + 1)
    simp only [showTriple]
    by_cases h1 : (processShowOutcome dryRun (envs k) tv).status = "new_request"
    · rw [if_pos h1]; simp only [List.length_cons]; omega
    · rw [if_neg h1]
      by_cases h2 : (processShowOutcome dryRun (envs k) tv).status = "existing_request"
      · rw [if_pos h2]; simp only [List.length_cons]; omega
      · rw [if_neg h2]; simp only [List.length_cons]; omega

/-- C9: corrected run-summary invariant. The original disjointness fails:
a film and a TV show sharing one title make that title appear in both
new_downloads and existing_downloads of a single pass (see the
counterexample). What holds: the summary lists decompose into the
per-title classifications of the movie and show loops, every processed
title lands in exactly one of the three lists (the lengths add up to the
number of processed titles), and the reporter renders a title as failed
exactly when it starts no entry of either download list. -/
theorem claim_C9_run_disjointness (dryRun : Bool) (country : String)
    (feed : Except String (List FeedRow)) (envs : Nat → Env) (t : String)
    (h : ¬((get_netflix_top10 country feed).1.isEmpty = true
        ∧ (get_netflix_top10 country feed).2.isEmpty = true)) :
    (run_once dryRun country feed envs).new_downloads
      = (movieTriple dryRun envs 0 (get_netflix_top10 country feed).1).1
        ++ (showTriple dryRun envs (get_netflix_top10 country feed).1.length
              (get_netflix_top10 country feed).2).1
    ∧ (run_once dryRun country feed envs).existing_downloads
      = (movieTriple dryRun envs 0 (get_netflix_top10 country feed).1).2.1
        ++ (showTriple dryRun envs (get_netflix_top10 country feed).1.length
              (get_netflix_top10 country feed).2).2.1
    ∧ (run_once dryRun country feed envs).errors
      = (movieTriple dryRun envs 0 (get_netflix_top10 country feed).1).2.2
        ++ (showTriple dryRun envs (get_netflix_top10 country feed).1.length
              (get_netflix_top10 country feed).2).2.2
    ∧ (run_once dryRun country feed envs).new_downloads.length
        + (run_once dryRun country feed envs).existing_downloads.length
        + (run_once dryRun country feed envs).errors.length
      = (get_netflix_top10 country feed).1.length
        + (get_netflix_top10 country feed).2.length
    ∧ (get_title_status t (run_once dryRun country feed envs) = "✗ Failed"
        ↔ titleAppears t (run_once dryRun country feed envs).new_downloads = false
          ∧ titleAppears t
              (run_once dryRun country feed envs).existing_downloads = false) := by
  have hS : run_once dryRun country feed envs =
      { top_movies := (get_netflix_top10 country feed).1,
        top_shows := (get_netflix_top10 country feed).2,
        new_downloads :=
          (movieTriple dryRun envs 0 (get_netflix_top10 country feed).1).1
          ++ (showTriple dryRun envs (get_netflix_top10 country feed).1.length
                (get_netflix_top10 country feed).2).1,
        existing_downloads :=
          (movieTriple dryRun envs 0 (get_netflix_top10 country feed).1).2.1
          ++ (showTriple dryRun envs (get_netflix_top10 country feed).1.length
                (get_netflix_top10 country feed).2).2.1,
        errors :=
          (movieTriple dryRun envs 0 (get_netflix_top10 country feed).1).2.2
          ++ (showTriple dryRun envs (get_netflix_top10 country feed).1.length
                (get_netflix_top10 country feed).2).2.2 } := by
    simp only [run_once]
    rw [if_neg h]
    rw [runMovies_spec dryRun envs (get_netflix_top10 country feed).1 0,
      runShows_spec dryRun envs (get_netflix_top10 country feed).2]
    simp
  refine ⟨by rw [hS], by rw [hS], by rw [hS], ?_, ?_⟩
  · rw [hS]
    simp only [List.length_append]
    have hm := movieTriple_len dryRun envs (get_netflix_top10 country feed).1 0
    have hs := showTriple_len dryRun envs (get_netflix_top10 country feed).2
      (get_netflix_top10 country feed).1.length
    omega
  · by_cases h1 :
      titleAppears t (run_once dryRun country feed envs).new_downloads = true
    · simp [get_title_status, h1]
    · by_cases h2 : titleAppears t
        (run_once dryRun country feed envs).existing_downloads = true
      · simp [get_title_status, h1, h2]
      · simp [get_title_status, h1, h2]

theorem claim_C9_run_disjointness_counterexample :
    titleAppears "A"
      (run_once false "US" (Except.ok feedRowsAB) envsAB).new_downloads = true
    ∧ titleAppears "A"
      (run_once false "US" (Except.ok feedRowsAB) envsAB).existing_downloads
        = true := by
  exact ⟨by decide, by decide⟩

theorem claim_C9_run_disjointness_witness :
    (¬((get_netflix_top10 "US" (Except.ok feedRowsAB)).1.isEmpty = true
        ∧ (get_netflix_top10 "US" (Except.ok feedRowsAB)).2.isEmpty = true))
    ∧ ((run_once false "US" (Except.ok feedRowsAB) envsAB).new_downloads.length
        + (run_once false "US"
            (Except.ok feedRowsAB) envsAB).existing_downloads.length
        + (run_once false "US" (Except.ok feedRowsAB) envsAB).errors.length
      = (get_netflix_top10 "US" (Except.ok feedRowsAB)).1.length
        + (get_netflix_top10 "US" (Except.ok feedRowsAB)).2.length) :=
  ⟨by decide,
   (claim_C9_run_disjointness false "US" (Except.ok feedRowsAB) envsAB "A"
     (by decide)).2.2.2.1⟩
